import Mathlib

set_option maxHeartbeats 1000000

/-!
Verification of the IBSP wearable / LoRa-relay core.

Shallow embedding of the fall-detection state machine and the telemetry
protocol of the IBSP repository, together with proofs settling the frozen
claims C1–C10.

Sources embedded here:
* `src/esp/src/main.cpp` — `FallDetector` (state machine, immobility
  analysis), `PayloadBuilder::tempToInt8`, `LoRaComm::sendUplink`;
* `src/unnamed/part_000` — the packet handling in the relay `loop`,
  `parsePacketInfo`, `forwardToRaspberryPi`, `updateDisplay` (only its
  effects on program state);
* `src/LoRa_Gateway/src/main.cpp` — `forwardToRaspberryPi` (byte-for-byte
  the same framing as on the relay, modelled once).

Modelling conventions:
* C/C++ `float`/`double` quantities are modelled as `ℚ`; the state-machine
  logic only ever compares these quantities against constant thresholds, so
  the rational model is faithful wherever the compared values are exactly
  representable (all counterexamples below use small dyadic/decimal values
  far from any threshold boundary).
* `uint8_t` counters step with `% 256`, `uint16_t` with `% 65536`,
  `uint32_t` with `% 2^32`; `millis()` timestamps are natural numbers and
  every `uint32_t` time subtraction goes through `u32sub`.
* `sqrt`/`atan2` appear only in the derived-metric prelude of
  `detectFall` (jerk magnitude, SVM, angular velocity, pitch, roll).  The
  embedding takes those five derived values as the per-tick input, which is
  exactly the interface the state machine consumes; each comparison
  `sqrt e > c` in `checkPostFallMovement` is embedded as the equivalent
  `e > c^2` (both sides nonnegative).
-/

/-! ## Machine-integer helpers -/

/-- `uint32_t` subtraction `a - b` (C++ wraps modulo `2^32`). -/
def u32sub (a b : ℕ) : ℕ :=
  ((a % 2 ^ 32) + 2 ^ 32 - b % 2 ^ 32) % 2 ^ 32

/-- Increment of a `uint8_t` counter by `k`. -/
def u8inc (c k : ℕ) : ℕ := (c + k) % 256

/-- Reinterpret a byte (0–255) as a signed `int8_t`. -/
def asInt8 (b : ℕ) : ℤ := if b % 256 < 128 then (b % 256 : ℤ) else (b % 256 : ℤ) - 256

/-- `(uint8_t)` conversion of an integer (wraps modulo 256). -/
def u8ofInt (z : ℤ) : ℕ := (z % 256).toNat

/-- C truncation toward zero of a rational (the `(int)`/`(uint8_t)` cast of a
floating value). -/
def cTrunc (q : ℚ) : ℤ := if 0 ≤ q then ⌊q⌋ else -⌊-q⌋

theorem u32sub_self (a : ℕ) : u32sub a a = 0 := by
  simp [u32sub]

/-! ## Temperature codec (claim C1)

`src/esp/src/main.cpp` lines 2319–2327:
```
static int8_t tempToInt8(float temp) {
  int mapped = (int)((temp + 20.0) / 100.0 * 255.0);
  return constrain(mapped, 0, 255);
}
```
The returned value is stored into a `uint8_t` payload byte, so the byte on
the wire is the constrained value itself.  Note the cast `(int)(...)`
truncates toward zero — it does not round.

`src/unnamed/part_000` lines 148–151 (the inverse on the relay):
```
uint8_t tempEncoded = data[15];
lastPacket.temperature = ((tempEncoded / 255.0) * 100.0) - 20.0;
```
-/

/-- `PayloadBuilder::tempToInt8`: encode a temperature in °C to the payload
byte.  `constrain(x, 0, 255)` is the Arduino clamp. -/
def tempToInt8 (temp : ℚ) : ℕ :=
  (max 0 (min 255 (cTrunc ((temp + 20) / 100 * 255)))).toNat

/-- The decode used by the relay in `parsePacketInfo`. -/
def decodeTemp (b : ℕ) : ℚ := ((b : ℚ) / 255) * 100 - 20

/-- The `k`-th grid point of the claimed sweep `[-20,80]` step `0.4`. -/
def tempGrid (k : ℕ) : ℚ := -20 + (2 / 5) * k

/-! ## Serial relay framing (claim C8)

`forwardToRaspberryPi` in `src/unnamed/part_000` lines 597–607 and
(identically) `src/LoRa_Gateway/src/main.cpp` lines 202–212:
```
Serial1.write(0xAA);
Serial1.write((uint8_t)length);
Serial1.write((uint8_t)(rssi + 150));
Serial1.write((uint8_t)(snr + 20));
Serial1.write(data, length);
Serial1.write(0x55);
```
`rssi` is an `int`, `snr` a `float`; the casts wrap modulo 256 (for the
float, after C truncation toward zero). -/

/-- Byte stream emitted by `forwardToRaspberryPi` for a payload `data`. -/
def forwardToRaspberryPi (data : List ℕ) (rssi : ℤ) (snr : ℚ) : List ℕ :=
  0xAA :: (data.length % 256) :: u8ofInt (rssi + 150) ::
    u8ofInt (cTrunc (snr + 20)) :: (data ++ [0x55])

/-! ## LoRa uplink header and frame counter (claim C9)

`LoRaComm` in `src/esp/src/main.cpp` lines 1995–2102.  `frameCounter` is a
`uint16_t` starting at 0 and incremented only after a successful
`radio.transmit`.  The packet header is
`[DEVICE_ID 10 bytes, zero padded][frameCounter LE 2 bytes][port 1 byte]`.
-/

/-- `DEVICE_ID = "ESP32-001"`, `strncpy`ed into a zeroed 10-byte field. -/
def deviceIdBytes : List ℕ := [69, 83, 80, 51, 50, 45, 48, 48, 49, 0]

/-- The mutable state of `LoRaComm` that `sendUplink` touches. -/
structure LoRaCommState where
  initialized : Bool
  frameCounter : ℕ      -- uint16_t, always < 65536
  lastTxTime : ℕ
  deriving Repr, DecidableEq

/-- State of a fresh `LoRaComm` (its constructor). -/
def LoRaCommState.init : LoRaCommState :=
  { initialized := false, frameCounter := 0, lastTxTime := 0 }

/-- The packet assembled by `sendUplink` before transmission (header plus
payload); the frame-counter field is the pre-increment counter value,
little-endian. -/
def uplinkPacket (fc : ℕ) (port : ℕ) (data : List ℕ) : List ℕ :=
  deviceIdBytes ++ [fc % 256, fc / 256 % 256] ++ [port % 256] ++ data

/-- `LoRaComm::sendUplink`.  `txOk` is the answer of the environment to
`radio.transmit` (`RADIOLIB_ERR_NONE` or not); `t` is `millis()`.
Returns (return value, new state, the transmitted bytes if any). -/
def sendUplink (s : LoRaCommState) (port : ℕ) (data : List ℕ) (txOk : Bool)
    (t : ℕ) : Bool × LoRaCommState × Option (List ℕ) :=
  if ¬s.initialized then (false, s, none)
  else
    let packet := uplinkPacket s.frameCounter port data
    if txOk then
      (true,
       { s with frameCounter := (s.frameCounter + 1) % 65536, lastTxTime := t },
       some packet)
    else (false, s, some packet)

/-- One successful transmit, viewed as a step on the state. -/
def sendOk (port : ℕ) (data : List ℕ) (t : ℕ) (s : LoRaCommState) :
    LoRaCommState :=
  (sendUplink s port data true t).2.1

/-! ## Relay (gateway) packet handling (claims C6, C7, C10)

State and functions from `src/unnamed/part_000`: the globals at lines
49–86, `parsePacketInfo` (117–181), the state effects of `updateDisplay`
(313–591: the only program-state writes are `packetsSkipped = 0` and
`needsFullRefresh = ...` in the full-refresh branch), and the packet
branch of `loop` (689–844).  Pure display drawing, serial prints and the
`currentTime` clock bookkeeping (which never feeds back into any of the
fields the claims mention) are not modelled. -/

/-- The `lastPacket` global struct of the relay. -/
structure LastPacketInfo where
  type : ℕ                 -- uint8_t
  deviceId : List ℕ        -- the 10 copied bytes
  frameCounter : ℕ         -- uint16_t
  heartRate : ℤ            -- int8_t
  temperature : ℚ          -- float
  noiseLevel : ℕ           -- uint8_t
  fallState : ℕ            -- uint8_t
  fallDetected : Bool
  noiseAlert : Bool
  hrAlert : Bool
  tempAlert : Bool
  deriving Repr, DecidableEq

/-- Initial value of `lastPacket` (line 86). -/
def LastPacketInfo.init : LastPacketInfo :=
  { type := 0, deviceId := [], frameCounter := 0, heartRate := 0,
    temperature := 0, noiseLevel := 0, fallState := 0, fallDetected := false,
    noiseAlert := false, hrAlert := false, tempAlert := false }

/-- `parsePacketInfo(data, length)`: updates `lastPacket` in place; fields
not written keep their previous values. -/
def parsePacketInfo (lp : LastPacketInfo) (data : List ℕ) (length : ℕ) :
    LastPacketInfo :=
  if length < 13 then lp
  else
    let lp := { lp with
      deviceId := data.take 10,
      frameCounter := (data.getD 11 0 % 256) * 256 + data.getD 10 0 % 256,
      type := data.getD 12 0 % 256,
      noiseAlert := false, hrAlert := false, tempAlert := false }
    if lp.type = 1 ∧ 23 ≤ length then
      let alertFlags := data.getD 19 0
      { lp with
        heartRate := asInt8 (data.getD 14 0),
        temperature := decodeTemp (data.getD 15 0 % 256),
        noiseLevel := data.getD 17 0 % 256,
        fallState := data.getD 18 0 % 256,
        fallDetected := 2 ≤ data.getD 18 0 % 256,
        hrAlert := alertFlags &&& 0x01 ≠ 0,
        tempAlert := alertFlags &&& 0x02 ≠ 0,
        noiseAlert := alertFlags &&& 0x08 ≠ 0 }
    else if lp.type = 2 then
      { lp with
        heartRate := -1, temperature := 0, noiseLevel := 0,
        fallState := 0, fallDetected := false }
    else if lp.type = 3 ∧ 58 ≤ length then
      { lp with
        heartRate := asInt8 (data.getD 40 0),
        temperature := decodeTemp (data.getD 41 0 % 256),
        noiseLevel := 0, fallState := 2, fallDetected := true }
    else lp

/-- The relay globals mutated by the `loop` packet branch. -/
structure GatewayState where
  packetsReceived : ℕ      -- uint32_t
  packetsSkipped : ℕ       -- uint32_t
  lastRxBuffer : List ℕ    -- the bytes last stored for duplicate detection
  lastRxLength : ℕ
  displayAvailable : Bool
  needsFullRefresh : Bool
  lastPacketMillis : ℕ
  lastFrameCounter : ℕ     -- uint16_t
  lastPacket : LastPacketInfo
  lastPacketType : ℕ       -- the `static uint8_t lastPacketType` in loop()
  deriving Repr, DecidableEq

/-- Relay globals at boot (display not yet initialized). -/
def GatewayState.init : GatewayState :=
  { packetsReceived := 0, packetsSkipped := 0, lastRxBuffer := [],
    lastRxLength := 0, displayAvailable := false, needsFullRefresh := true,
    lastPacketMillis := 0, lastFrameCounter := 0,
    lastPacket := LastPacketInfo.init, lastPacketType := 0 }

/-- Condition under which `updateDisplay` takes its full-refresh branch
(line 319). -/
def fullRefreshCond (s : GatewayState) : Bool :=
  s.needsFullRefresh || s.lastPacket.fallState == 3 ||
    (s.lastPacket.fallDetected && s.lastPacket.type == 3)

/-- The program-state effects of `updateDisplay` (lines 313–480): the
full-refresh branch zeroes `packetsSkipped` and recomputes
`needsFullRefresh`; the partial branch changes no modelled state. -/
def updateDisplayEffect (s : GatewayState) : GatewayState :=
  if ¬s.displayAvailable then s
  else if fullRefreshCond s then
    { s with packetsSkipped := 0,
             needsFullRefresh := s.lastPacket.fallDetected }
  else s

/-- Duplicate test against the stored bad packet (lines 710–719 / 744–753):
equal length, nonzero length, and byte-for-byte equality. -/
def isDuplicateBad (s : GatewayState) (p : List ℕ) : Bool :=
  s.lastRxLength == p.length && 0 < p.length && s.lastRxBuffer == p

/-- Handling of an invalid packet (both the unknown-type branch at lines
708–740 and the too-short branch at lines 741–773, which are identical in
their state effects).  The display gate `displayAvailable &&
packetsReceived > 0` reads fields the preceding update does not touch, so
it is checked on the incoming state. -/
def handleInvalidPacket (s : GatewayState) (p : List ℕ) : GatewayState :=
  if isDuplicateBad s p then s
  else if s.displayAvailable ∧ 0 < s.packetsReceived then
    updateDisplayEffect
      { s with packetsSkipped := (s.packetsSkipped + 1) % 2 ^ 32,
               lastRxBuffer := p, lastRxLength := p.length }
  else
    { s with packetsSkipped := (s.packetsSkipped + 1) % 2 ^ 32,
             lastRxBuffer := p, lastRxLength := p.length }

/-- The frame-counter dedup step of the valid-packet branch (lines
779–792): count and track only when the parsed frame counter differs from
the previously counted one. -/
def countStep (s : GatewayState) (t : ℕ) : GatewayState :=
  if s.lastPacket.frameCounter ≠ s.lastFrameCounter then
    { s with packetsReceived := (s.packetsReceived + 1) % 2 ^ 32,
             needsFullRefresh := true,
             lastPacketMillis := t,
             lastFrameCounter := s.lastPacket.frameCounter }
  else s

/-- The layout-refresh step of the valid-packet branch (lines 794–801). -/
def refreshStep (s : GatewayState) : GatewayState :=
  if s.lastPacket.type ≠ s.lastPacketType ∨ s.lastPacket.fallState = 3 ∨
      (s.lastPacket.fallDetected ∧ s.lastPacket.type = 3) then
    { s with needsFullRefresh := true, lastPacketType := s.lastPacket.type }
  else s

/-- One received radio packet through the `loop` body (lines 698–837).
`t` is `millis()` at reception.  A valid packet is parsed unconditionally
into `lastPacket`, then counted only on a fresh frame counter. -/
def processRadioPacket (s : GatewayState) (p : List ℕ) (t : ℕ) :
    GatewayState :=
  if 13 ≤ p.length then
    if p.getD 12 0 % 256 = 0 ∨ 3 < p.getD 12 0 % 256 then
      handleInvalidPacket s p
    else
      updateDisplayEffect (refreshStep (countStep
        { s with lastPacket := parsePacketInfo s.lastPacket p p.length } t))
  else handleInvalidPacket s p

/-- A packet the relay treats as invalid: too short, or packet type 0 or
above 3 (line 704–708). -/
def invalidPacket (p : List ℕ) : Prop :=
  p.length < 13 ∨ p.getD 12 0 % 256 = 0 ∨ 3 < p.getD 12 0 % 256

instance (p : List ℕ) : Decidable (invalidPacket p) := by
  unfold invalidPacket; infer_instance

/-! ## FallDetector (claims C2–C5)

Embedding of `FallDetector` from `src/esp/src/main.cpp` (lines 248–1075).
The per-tick input of `detectFall` is modelled at the derived-metric
interface: `calculateJerk`, `calculateSVM` and `calculateAngularVelocity`
produce nonnegative magnitudes and `atan2` produces the pitch/roll angles;
the state machine consumes exactly these five rationals plus `millis()`.
The threshold parameters are runtime-configurable fields in the source;
the claims are about their default values, embedded here under their
source names. -/

def JERK_THRESHOLD_HIGH : ℚ := 450000
def JERK_THRESHOLD_MEDIUM : ℚ := 300000
def JERK_THRESHOLD_LOW : ℚ := 200000
def SVM_THRESHOLD_HIGH : ℚ := 1.8
def SVM_THRESHOLD_LOW : ℚ := 0.65
def SVM_THRESHOLD_WARNING : ℚ := 1.4
def SVM_THRESHOLD_IMPACT_PEAK : ℚ := 2.2
def GYRO_THRESHOLD_COMBINED : ℚ := 180
def GYRO_THRESHOLD_SUSTAINED : ℚ := 120
def PITCH_THRESHOLD : ℚ := 40
def ROLL_THRESHOLD : ℚ := 35
def POSTURE_CHANGE_RAPID : ℚ := 60
def FALL_CONFIRMATION_WINDOW : ℕ := 500
def RECOVERY_TIME_WINDOW : ℕ := 5000
def IMMOBILITY_SAMPLING_INTERVAL : ℕ := 100
def FALL_SEQUENCE_WINDOW : ℕ := 800
def BOWING_REJECTION_TIME : ℕ := 1500
def IMPACT_COUNT_THRESHOLD : ℕ := 2
def WARNING_COUNT_THRESHOLD : ℕ := 3
def GYRO_SUSTAINED_COUNT : ℕ := 3
def IMMOBILITY_ACCEL_VARIANCE_THRESHOLD : ℚ := 0.005
def IMMOBILITY_ACCEL_STDDEV_THRESHOLD : ℚ := 0.1
def IMMOBILITY_GYRO_VARIANCE_THRESHOLD : ℚ := 5
def IMMOBILITY_SVM_RANGE_THRESHOLD : ℚ := 0.1
def IMMOBILITY_SAMPLE_COUNT : ℕ := 10

/-- `FallDetector::FallState`. -/
inductive FallState where
  | normal | warning | fallDetected | dangerous | recovery
  deriving Repr, DecidableEq

/-- `FallDetector::FallEvent`.  `movement_stddev` (a `sqrt` of
`movement_variance`, written but never read by any decision or claim) is
not carried. -/
structure FallEvent where
  state : FallState
  timestamp : ℕ
  jerk_magnitude : ℚ
  svm_value : ℚ
  angular_velocity : ℚ
  pitch_angle : ℚ
  roll_angle : ℚ
  confirmed : Bool
  movement_variance : ℚ
  is_immobile : Bool
  immobile_duration : ℕ
  deriving Repr, DecidableEq

/-- The mutable state of a `FallDetector` (private fields plus the two
function-`static` locals `prev_pitch`/`prev_roll` of `detectFall`).
`prev_accel_x/y/z` feed only the jerk magnitude, which is part of the
per-tick input here. -/
structure FDState where
  current_state : FallState
  state_change_time : ℕ
  last_fall_time : ℕ
  impact_counter : ℕ             -- uint8_t
  warning_counter : ℕ            -- uint8_t
  gyro_sustained_counter : ℕ     -- uint8_t
  last_sample_time : ℕ
  last_immobility_check_time : ℕ
  warning_start_time : ℕ
  detected_freefall : Bool
  detected_impact : Bool
  detected_rotation : Bool
  freefall_time : ℕ
  impact_time : ℕ
  prev_svm : ℚ
  svm_trend : ℚ
  vertical_motion_counter : ℕ
  latest_event : FallEvent
  is_calibrated : Bool
  baseline_pitch : ℚ
  baseline_roll : ℚ
  accel_samples : List ℚ         -- ImmobilityBuffer.accel_samples[30]
  gyro_samples : List ℚ
  svm_samples : List ℚ
  sample_index : ℕ               -- uint8_t
  sample_count : ℕ               -- uint8_t
  immobility_start_time : ℕ
  prev_pitch : ℚ
  prev_roll : ℚ
  deriving Repr, DecidableEq

/-- Input of one tick: the derived metrics and `millis()`. -/
structure SensorTick where
  jerk_mag : ℚ
  svm : ℚ
  angular_vel : ℚ
  pitch : ℚ
  roll : ℚ
  current_time : ℕ
  deriving Repr, DecidableEq

/-- `latest_event` after the `FallDetector()` constructor (fields the
constructor does not touch start at zero). -/
def initEvent : FallEvent :=
  { state := .normal, timestamp := 0, jerk_magnitude := 0, svm_value := 0,
    angular_velocity := 0, pitch_angle := 0, roll_angle := 0,
    confirmed := false, movement_variance := 0, is_immobile := false,
    immobile_duration := 0 }

/-- The `FallDetector()` constructor (lines 384–431); the SVM ring buffer
starts at 1 g. -/
def FDState.init : FDState :=
  { current_state := .normal, state_change_time := 0, last_fall_time := 0,
    impact_counter := 0, warning_counter := 0, gyro_sustained_counter := 0,
    last_sample_time := 0, last_immobility_check_time := 0,
    warning_start_time := 0, detected_freefall := false,
    detected_impact := false, detected_rotation := false, freefall_time := 0,
    impact_time := 0, prev_svm := 1, svm_trend := 0,
    vertical_motion_counter := 0, latest_event := initEvent,
    is_calibrated := false, baseline_pitch := 0, baseline_roll := 0,
    accel_samples := List.replicate 30 0, gyro_samples := List.replicate 30 0,
    svm_samples := List.replicate 30 1, sample_index := 0, sample_count := 0,
    immobility_start_time := 0, prev_pitch := 0, prev_roll := 0 }

/-- `FallDetector::calibrate`. -/
def calibrate (s : FDState) (pitch roll : ℚ) : FDState :=
  { s with
    baseline_pitch := pitch, baseline_roll := roll,
    is_calibrated := true }

/-- `FallDetector::reset` (lines 1057–1075). -/
def resetDetector (s : FDState) : FDState :=
  { s with
    current_state := .normal, impact_counter := 0,
    warning_counter := 0, gyro_sustained_counter := 0,
    latest_event := { s.latest_event with
      confirmed := false, is_immobile := false, immobile_duration := 0 },
    sample_count := 0, sample_index := 0, immobility_start_time := 0,
    warning_start_time := 0, detected_freefall := false,
    detected_impact := false, detected_rotation := false,
    freefall_time := 0, impact_time := 0, vertical_motion_counter := 0 }

/-- `delta_time` at the top of `detectFall` (clamped to 0.01 s). -/
def dtOf (s : FDState) (t : ℕ) : ℚ :=
  let d : ℚ := (u32sub t s.last_sample_time : ℚ) / 1000
  if d ≤ 0 then 1/100 else d

/-- Metric bookkeeping at the top of `detectFall` (lines 530–553):
`last_sample_time`, `svm_trend`, `prev_svm`. -/
def st2book (s : FDState) (m : SensorTick) : FDState :=
  { s with
    last_sample_time := m.current_time,
    svm_trend := m.svm - s.prev_svm, prev_svm := m.svm }

/-- Free-fall phase entry (lines 563–567). -/
def st2freefall (s : FDState) (m : SensorTick) : FDState :=
  if m.svm < SVM_THRESHOLD_LOW && !s.detected_freefall then
    { s with detected_freefall := true, freefall_time := m.current_time }
  else s

/-- Free-fall phase expiry (lines 570–572). -/
def st2freefallReset (s : FDState) (m : SensorTick) : FDState :=
  if s.detected_freefall &&
      FALL_SEQUENCE_WINDOW < u32sub m.current_time s.freefall_time then
    { s with detected_freefall := false }
  else s

/-- Impact-counter bump inside the impact branch (lines 579–585). -/
def st2impactInc (s : FDState) (t : ℕ) : FDState :=
  if s.detected_freefall && u32sub t s.freefall_time < FALL_SEQUENCE_WINDOW then
    { s with impact_counter := u8inc s.impact_counter 2 }
  else { s with impact_counter := u8inc s.impact_counter 1 }

/-- NORMAL→WARNING move inside the impact branch (lines 587–590). -/
def st2impactWarn (s : FDState) (t : ℕ) : FDState :=
  if s.current_state == FallState.normal then
    { s with current_state := .warning, warning_start_time := t }
  else s

/-- Impact phase detection (lines 575–591). -/
def st2impact (s : FDState) (m : SensorTick) : FDState :=
  if (SVM_THRESHOLD_HIGH < m.svm || JERK_THRESHOLD_HIGH < m.jerk_mag) &&
      !s.detected_impact then
    st2impactWarn
      (st2impactInc
        { s with detected_impact := true, impact_time := m.current_time }
        m.current_time)
      m.current_time
  else s

/-- Impact phase expiry (lines 594–596). -/
def st2impactReset (s : FDState) (m : SensorTick) : FDState :=
  if s.detected_impact &&
      FALL_SEQUENCE_WINDOW < u32sub m.current_time s.impact_time then
    { s with detected_impact := false }
  else s

/-- `very_high_impact` arm of the counter chain (lines 599–602). -/
def st2veryHigh (s : FDState) (t : ℕ) : FDState :=
  let s := { s with impact_counter := u8inc s.impact_counter 2,
                    current_state := .warning }
  if s.warning_start_time == 0 then { s with warning_start_time := t } else s

/-- `medium_jerk || svm > warning` arm of the counter chain
(lines 603–608). -/
def st2medium (s : FDState) (t : ℕ) : FDState :=
  let s := { s with warning_counter := u8inc s.warning_counter 1 }
  if WARNING_COUNT_THRESHOLD ≤ s.warning_counter then
    let s := { s with current_state := .warning }
    if s.warning_start_time == 0 then { s with warning_start_time := t }
    else s
  else s

/-- Counter-decay arm of the chain (lines 612–621). -/
def st2decay (s : FDState) : FDState :=
  let s := { s with impact_counter := s.impact_counter - 1,
                    warning_counter := s.warning_counter - 1 }
  if s.current_state == FallState.warning && s.impact_counter == 0 &&
      s.warning_counter == 0 then
    { s with current_state := .normal, warning_start_time := 0 }
  else s

/-- The `very_high / medium / low-jerk / decay` else-if chain
(lines 598–622). -/
def st2chain (s : FDState) (m : SensorTick) : FDState :=
  if SVM_THRESHOLD_IMPACT_PEAK < m.svm then st2veryHigh s m.current_time
  else if JERK_THRESHOLD_MEDIUM < m.jerk_mag ∨
      SVM_THRESHOLD_WARNING < m.svm then st2medium s m.current_time
  else if JERK_THRESHOLD_LOW < m.jerk_mag &&
      s.current_state == FallState.warning then
    { s with warning_counter := u8inc s.warning_counter 1 }
  else st2decay s

/-- Stages 1–2 of `detectFall` (lines 530–622), in source order. -/
def stage2 (s : FDState) (m : SensorTick) : FDState :=
  st2chain
    (st2impactReset (st2impact (st2freefallReset (st2freefall (st2book s m) m) m) m) m)
    m

/-- Stage 3 of `detectFall` (lines 624–645): sustained-rotation counter. -/
def stage3 (s : FDState) (m : SensorTick) : FDState :=
  if GYRO_THRESHOLD_SUSTAINED < m.angular_vel then
    { s with gyro_sustained_counter := u8inc s.gyro_sustained_counter 1,
             detected_rotation := true }
  else if 0 < s.gyro_sustained_counter then
    { s with gyro_sustained_counter := s.gyro_sustained_counter - 1 }
  else s

/-- Stage 4 of `detectFall` (lines 647–683): posture verification.  Returns
the updated state together with `(posture_changed, rapid_posture_change)`;
both are `false` when not calibrated (posture criteria are skipped, and
the static `prev_pitch`/`prev_roll` are not updated). -/
def stage4 (s : FDState) (m : SensorTick) (dt : ℚ) : FDState × Bool × Bool :=
  if s.is_calibrated then
    let pitch_change := |m.pitch - s.baseline_pitch|
    let roll_change := |m.roll - s.baseline_roll|
    let pitch_rate := |m.pitch - s.prev_pitch| / (dt + 1/1000)
    let roll_rate := |m.roll - s.prev_roll| / (dt + 1/1000)
    let posture_changed : Bool :=
      PITCH_THRESHOLD < pitch_change ∨ ROLL_THRESHOLD < roll_change
    let rapid : Bool :=
      POSTURE_CHANGE_RAPID < pitch_change ∨ POSTURE_CHANGE_RAPID < roll_change
        ∨ 100 < pitch_rate ∨ 80 < roll_rate
    ({ s with
        prev_pitch := m.pitch, prev_roll := m.roll,
        latest_event := { s.latest_event with
          pitch_angle := m.pitch, roll_angle := m.roll } },
     posture_changed, rapid)
  else (s, false, false)

/-- `warning_duration` at stage 5. -/
def warningDuration (s : FDState) (t : ℕ) : ℕ := u32sub t s.warning_start_time

/-- The `likely_bowing` test (lines 695–701); `false` when not
calibrated. -/
def likelyBowing (s : FDState) (t : ℕ) (rapid : Bool) : Bool :=
  s.is_calibrated && decide (BOWING_REJECTION_TIME < warningDuration s t) &&
    decide (s.gyro_sustained_counter = 0) && !s.detected_freefall && !rapid

/-- The `likely_jumping` test (lines 720–728). -/
def likelyJumping (s : FDState) : Bool :=
  s.detected_freefall && !s.detected_rotation &&
    decide (s.gyro_sustained_counter = 0)

/-- `criteria_score` of the five weighted confirmation criteria
(lines 731–780), evaluated on the state as it stands at stage 5. -/
def criteriaScore (s : FDState) (m : SensorTick) (rapid posture_changed : Bool) : ℕ :=
  (if IMPACT_COUNT_THRESHOLD ≤ s.impact_counter then
     if s.detected_freefall ∧
         u32sub s.impact_time s.freefall_time < FALL_SEQUENCE_WINDOW then 3
     else 1
   else 0) +
  (if GYRO_SUSTAINED_COUNT ≤ s.gyro_sustained_counter then 3
   else if GYRO_THRESHOLD_COMBINED < m.angular_vel then 2 else 0) +
  (if rapid then 3 else if posture_changed then 2 else 0) +
  (if JERK_THRESHOLD_HIGH < m.jerk_mag then 1 else 0) +
  (if s.detected_freefall ∧ s.detected_impact ∧ s.detected_rotation then 2
   else 0)

/-- `criteria_count` — how many distinct criteria fired (lines 731–780). -/
def criteriaCount (s : FDState) (m : SensorTick) (rapid posture_changed : Bool) : ℕ :=
  (if IMPACT_COUNT_THRESHOLD ≤ s.impact_counter then 1 else 0) +
  (if GYRO_SUSTAINED_COUNT ≤ s.gyro_sustained_counter then 1
   else if GYRO_THRESHOLD_COMBINED < m.angular_vel then 1 else 0) +
  (if rapid then 1 else if posture_changed then 1 else 0) +
  (if JERK_THRESHOLD_HIGH < m.jerk_mag then 1 else 0) +
  (if s.detected_freefall ∧ s.detected_impact ∧ s.detected_rotation then 1
   else 0)

/-- The confirmation decision rule (line 794). -/
def confirmCond (s : FDState) (m : SensorTick) (rapid posture_changed : Bool) : Prop :=
  6 ≤ criteriaScore s m rapid posture_changed ∨
    (4 ≤ criteriaScore s m rapid posture_changed ∧
     3 ≤ criteriaCount s m rapid posture_changed)

instance (s : FDState) (m : SensorTick) (r p : Bool) :
    Decidable (confirmCond s m r p) := by
  unfold confirmCond; infer_instance

/-- State reset on WARNING→NORMAL rejection paths (bowing, timeout; lines
706–713 and 822–829). -/
def resetWarning (s : FDState) : FDState :=
  { s with
    current_state := .normal, impact_counter := 0,
    warning_counter := 0, gyro_sustained_counter := 0,
    warning_start_time := 0, detected_freefall := false,
    detected_impact := false, detected_rotation := false }

/-- State update on fall confirmation (lines 796–815); note
`warning_start_time` is not reset here, matching the source. -/
def confirmFall (s : FDState) (t : ℕ) : FDState :=
  { s with
    current_state := .fallDetected, state_change_time := t,
    last_fall_time := t, impact_counter := 0, warning_counter := 0,
    gyro_sustained_counter := 0, detected_freefall := false,
    detected_impact := false, detected_rotation := false }

/-- Stage 5 of `detectFall` (lines 685–831): bowing rejection (with its
early `return`), jumping suspicion, weighted confirmation and the warning
timeout.  Returns `(state, early_return, fall_confirmed)`. -/
def stage5 (s : FDState) (m : SensorTick) (rapid posture_changed : Bool) :
    FDState × Bool × Bool :=
  if s.current_state = FallState.warning then
    if likelyBowing s m.current_time rapid then (resetWarning s, true, false)
    else if confirmCond s m rapid posture_changed then
      if likelyJumping s then (s, false, false)
      else (confirmFall s m.current_time, false, true)
    else if FALL_SEQUENCE_WINDOW < warningDuration s m.current_time ∧
        criteriaScore s m rapid posture_changed < 4 then
      (resetWarning s, false, false)
    else (s, false, false)
  else (s, false, false)

/-- Sample variance (biased, `/N`) of the first 10 ring-buffer slots. -/
def var10 (l : List ℚ) (mean : ℚ) : ℚ :=
  ((l.take IMMOBILITY_SAMPLE_COUNT).map (fun x => (x - mean) ^ 2)).sum / 10

/-- Buffer write, index wrap and count bump of `checkPostFallMovement`
(lines 914–936). -/
def checkAppend (s : FDState) (svm av : ℚ) (t : ℕ) : FDState :=
  let s := { s with
    last_immobility_check_time := t,
    accel_samples := s.accel_samples.set s.sample_index svm,
    gyro_samples := s.gyro_samples.set s.sample_index av,
    svm_samples := s.svm_samples.set s.sample_index svm }
  let s := { s with
    sample_index := if IMMOBILITY_SAMPLE_COUNT ≤ s.sample_index + 1 then 0
                    else s.sample_index + 1 }
  if s.sample_count < IMMOBILITY_SAMPLE_COUNT then
    { s with sample_count := s.sample_count + 1 }
  else s

/-- Full-window immobility evaluation of `checkPostFallMovement` (lines
944–1030).  The comparison `sqrt(accel_variance) <
IMMOBILITY_ACCEL_STDDEV_THRESHOLD` is embedded as
`accel_variance < threshold²` (both sides nonnegative). -/
def checkEvaluate (s : FDState) (t : ℕ) : FDState :=
  let accel_mean := (s.accel_samples.take IMMOBILITY_SAMPLE_COUNT).sum / 10
  let gyro_mean := (s.gyro_samples.take IMMOBILITY_SAMPLE_COUNT).sum / 10
  let svm_min := (s.svm_samples.take IMMOBILITY_SAMPLE_COUNT).foldl
    (fun acc x => if x < acc then x else acc) 999
  let svm_max := (s.svm_samples.take IMMOBILITY_SAMPLE_COUNT).foldl
    (fun acc x => if acc < x then x else acc) 0
  let svm_range := svm_max - svm_min
  let accel_variance := var10 s.accel_samples accel_mean
  let gyro_variance := var10 s.gyro_samples gyro_mean
  let crit : ℕ :=
    (if accel_variance < IMMOBILITY_ACCEL_VARIANCE_THRESHOLD then 1 else 0) +
    (if accel_variance < IMMOBILITY_ACCEL_STDDEV_THRESHOLD ^ 2 then 1 else 0) +
    (if gyro_variance < IMMOBILITY_GYRO_VARIANCE_THRESHOLD then 1 else 0) +
    (if svm_range < IMMOBILITY_SVM_RANGE_THRESHOLD then 1 else 0)
  let imm : Bool := 3 ≤ crit
  let s := { s with latest_event := { s.latest_event with
    movement_variance := accel_variance, is_immobile := imm } }
  if imm then
    let s := if s.immobility_start_time == 0 then
        { s with immobility_start_time := t } else s
    { s with latest_event := { s.latest_event with
      immobile_duration := u32sub t s.immobility_start_time } }
  else
    { s with
      immobility_start_time := 0,
      latest_event := { s.latest_event with immobile_duration := 0 } }

/-- `FallDetector::checkPostFallMovement` (lines 907–1031): sample unless
inside the 100 ms gate, then either clear `is_immobile` (window not yet
full) or run the full evaluation. -/
def checkPostFallMovement (s : FDState) (svm av : ℚ) (t : ℕ) : FDState :=
  if u32sub t s.last_immobility_check_time < IMMOBILITY_SAMPLING_INTERVAL then
    s
  else if (checkAppend s svm av t).sample_count < IMMOBILITY_SAMPLE_COUNT then
    { checkAppend s svm av t with
      latest_event := { (checkAppend s svm av t).latest_event with
        is_immobile := false } }
  else checkEvaluate (checkAppend s svm av t) t

/-- Stage 6 of `detectFall` (lines 833–855): FALL_DETECTED →
{DANGEROUS|RECOVERY} once the window is full. -/
def stage6 (s : FDState) (m : SensorTick) : FDState :=
  if s.current_state = FallState.fallDetected ∧
      FALL_CONFIRMATION_WINDOW < u32sub m.current_time s.state_change_time then
    if IMMOBILITY_SAMPLE_COUNT ≤
        (checkPostFallMovement s m.svm m.angular_vel m.current_time).sample_count then
      if (checkPostFallMovement s m.svm m.angular_vel m.current_time).latest_event.is_immobile then
        { checkPostFallMovement s m.svm m.angular_vel m.current_time with
          current_state := .dangerous }
      else
        { checkPostFallMovement s m.svm m.angular_vel m.current_time with
          current_state := .recovery }
    else checkPostFallMovement s m.svm m.angular_vel m.current_time
  else s

/-- Stage 7 of `detectFall` (lines 857–867): DANGEROUS monitoring. -/
def stage7 (s : FDState) (m : SensorTick) : FDState :=
  if s.current_state = FallState.dangerous then
    if ¬(checkPostFallMovement s m.svm m.angular_vel m.current_time).latest_event.is_immobile then
      { checkPostFallMovement s m.svm m.angular_vel m.current_time with
        current_state := .recovery }
    else checkPostFallMovement s m.svm m.angular_vel m.current_time
  else s

/-- Stage 8 of `detectFall` (lines 869–878): RECOVERY → NORMAL cool-down. -/
def stage8 (s : FDState) (m : SensorTick) : FDState :=
  if s.current_state = FallState.recovery ∧
      RECOVERY_TIME_WINDOW < u32sub m.current_time s.last_fall_time then
    { s with current_state := .normal, sample_count := 0, sample_index := 0 }
  else s

/-- The `latest_event` update at the end of `detectFall` (lines 880–886). -/
def finalizeEvent (s : FDState) (m : SensorTick) (confirmed : Bool) : FDState :=
  { s with latest_event := { s.latest_event with
      state := s.current_state, timestamp := m.current_time,
      jerk_magnitude := m.jerk_mag, svm_value := m.svm,
      angular_velocity := m.angular_vel, confirmed := confirmed } }

/-- `FallDetector::detectFall` — one full tick.  Returns the post-state and
the returned `FallEvent` (on the bowing early `return`, the stale
`latest_event` as in the source). -/
def detectFall (s : FDState) (m : SensorTick) : FDState × FallEvent :=
  let dt := dtOf s m.current_time
  let p4 := stage4 (stage3 (stage2 s m) m) m dt
  let r5 := stage5 p4.1 m p4.2.2 p4.2.1
  if r5.2.1 then (r5.1, r5.1.latest_event)
  else
    let s8 := stage8 (stage7 (stage6 r5.1 m) m) m
    let sF := finalizeEvent s8 m r5.2.2
    (sF, sF.latest_event)

/-- Detector states reachable through its public interface (constructor,
`detectFall`, `calibrate`, `reset`). -/
inductive ReachableFD : FDState → Prop where
  | init : ReachableFD FDState.init
  | step (s : FDState) (m : SensorTick) :
      ReachableFD s → ReachableFD (detectFall s m).1
  | calib (s : FDState) (p r : ℚ) :
      ReachableFD s → ReachableFD (calibrate s p r)
  | rst (s : FDState) : ReachableFD s → ReachableFD (resetDetector s)

/-! ## Frame and case lemmas for the detector stages -/

/-- The immobility cluster (window fill and flag) that stages 2–5 never
touch. -/
def SameImmb (a b : FDState) : Prop :=
  b.sample_count = a.sample_count ∧
  b.latest_event.is_immobile = a.latest_event.is_immobile

theorem sameImmb_refl (a : FDState) : SameImmb a a := ⟨rfl, rfl⟩

theorem sameImmb_trans {a b c : FDState} (h1 : SameImmb a b)
    (h2 : SameImmb b c) : SameImmb a c :=
  ⟨h2.1.trans h1.1, h2.2.trans h1.2⟩

theorem sameImmb_st2book (s : FDState) (m : SensorTick) :
    SameImmb s (st2book s m) := ⟨rfl, rfl⟩

theorem sameImmb_st2freefall (s : FDState) (m : SensorTick) :
    SameImmb s (st2freefall s m) := by
  unfold st2freefall; split <;> exact ⟨rfl, rfl⟩

theorem sameImmb_st2freefallReset (s : FDState) (m : SensorTick) :
    SameImmb s (st2freefallReset s m) := by
  unfold st2freefallReset; split <;> exact ⟨rfl, rfl⟩

theorem sameImmb_st2impactInc (s : FDState) (t : ℕ) :
    SameImmb s (st2impactInc s t) := by
  unfold st2impactInc; split <;> exact ⟨rfl, rfl⟩

theorem sameImmb_st2impactWarn (s : FDState) (t : ℕ) :
    SameImmb s (st2impactWarn s t) := by
  unfold st2impactWarn; split <;> exact ⟨rfl, rfl⟩

theorem sameImmb_st2impact (s : FDState) (m : SensorTick) :
    SameImmb s (st2impact s m) := by
  unfold st2impact; split
  · have h1 : SameImmb s
        { s with detected_impact := true, impact_time := m.current_time } :=
      ⟨rfl, rfl⟩
    exact sameImmb_trans (sameImmb_trans h1 (sameImmb_st2impactInc _ _))
      (sameImmb_st2impactWarn _ _)
  · exact sameImmb_refl s

theorem sameImmb_st2impactReset (s : FDState) (m : SensorTick) :
    SameImmb s (st2impactReset s m) := by
  unfold st2impactReset; split <;> exact ⟨rfl, rfl⟩

theorem sameImmb_st2veryHigh (s : FDState) (t : ℕ) :
    SameImmb s (st2veryHigh s t) := by
  simp only [st2veryHigh]; split <;> exact ⟨rfl, rfl⟩

theorem sameImmb_st2medium (s : FDState) (t : ℕ) :
    SameImmb s (st2medium s t) := by
  simp only [st2medium]; repeat' split
  all_goals exact ⟨rfl, rfl⟩

theorem sameImmb_st2decay (s : FDState) :
    SameImmb s (st2decay s) := by
  simp only [st2decay]; split <;> exact ⟨rfl, rfl⟩

theorem sameImmb_st2chain (s : FDState) (m : SensorTick) :
    SameImmb s (st2chain s m) := by
  unfold st2chain; repeat' split
  · exact sameImmb_st2veryHigh _ _
  · exact sameImmb_st2medium _ _
  · exact ⟨rfl, rfl⟩
  · exact sameImmb_st2decay _

theorem sameImmb_stage2 (s : FDState) (m : SensorTick) :
    SameImmb s (stage2 s m) := by
  unfold stage2
  exact sameImmb_trans (sameImmb_trans (sameImmb_trans (sameImmb_trans
    (sameImmb_trans (sameImmb_st2book s m) (sameImmb_st2freefall _ _))
    (sameImmb_st2freefallReset _ _)) (sameImmb_st2impact _ _))
    (sameImmb_st2impactReset _ _)) (sameImmb_st2chain _ _)

theorem sameImmb_stage3 (s : FDState) (m : SensorTick) :
    SameImmb s (stage3 s m) := by
  unfold stage3; repeat' split
  all_goals exact ⟨rfl, rfl⟩

theorem sameImmb_stage4 (s : FDState) (m : SensorTick) (dt : ℚ) :
    SameImmb s (stage4 s m dt).1 := by
  unfold stage4; split <;> exact ⟨rfl, rfl⟩

theorem sameImmb_resetWarning (s : FDState) :
    SameImmb s (resetWarning s) := ⟨rfl, rfl⟩

theorem sameImmb_confirmFall (s : FDState) (t : ℕ) :
    SameImmb s (confirmFall s t) := ⟨rfl, rfl⟩

theorem sameImmb_stage5 (s : FDState) (m : SensorTick) (r p : Bool) :
    SameImmb s (stage5 s m r p).1 := by
  unfold stage5; repeat' split
  all_goals first
    | exact sameImmb_resetWarning _
    | exact sameImmb_confirmFall _ _
    | exact sameImmb_refl s

/-- One-call state evolution through stage 2: unchanged, WARNING or
NORMAL. -/
def StateStep2 (a b : FDState) : Prop :=
  b.current_state = a.current_state ∨
  b.current_state = FallState.warning ∨
  b.current_state = FallState.normal

theorem stateStep2_refl (a : FDState) : StateStep2 a a := Or.inl rfl

theorem stateStep2_trans {a b c : FDState} (h1 : StateStep2 a b)
    (h2 : StateStep2 b c) : StateStep2 a c := by
  rcases h2 with h | h | h
  · rcases h1 with h1 | h1 | h1
    · exact Or.inl (h.trans h1)
    · exact Or.inr (Or.inl (h.trans h1))
    · exact Or.inr (Or.inr (h.trans h1))
  · exact Or.inr (Or.inl h)
  · exact Or.inr (Or.inr h)

theorem stateStep2_st2book (s : FDState) (m : SensorTick) :
    StateStep2 s (st2book s m) := Or.inl rfl

theorem stateStep2_st2freefall (s : FDState) (m : SensorTick) :
    StateStep2 s (st2freefall s m) := by
  unfold st2freefall; split <;> exact Or.inl rfl

theorem stateStep2_st2freefallReset (s : FDState) (m : SensorTick) :
    StateStep2 s (st2freefallReset s m) := by
  unfold st2freefallReset; split <;> exact Or.inl rfl

theorem stateStep2_st2impactInc (s : FDState) (t : ℕ) :
    StateStep2 s (st2impactInc s t) := by
  unfold st2impactInc; split <;> exact Or.inl rfl

theorem stateStep2_st2impactWarn (s : FDState) (t : ℕ) :
    StateStep2 s (st2impactWarn s t) := by
  unfold st2impactWarn; split
  · exact Or.inr (Or.inl rfl)
  · exact Or.inl rfl

theorem stateStep2_st2impact (s : FDState) (m : SensorTick) :
    StateStep2 s (st2impact s m) := by
  unfold st2impact; split
  · have h1 : StateStep2 s
        { s with detected_impact := true, impact_time := m.current_time } :=
      Or.inl rfl
    exact stateStep2_trans (stateStep2_trans h1 (stateStep2_st2impactInc _ _))
      (stateStep2_st2impactWarn _ _)
  · exact stateStep2_refl s

theorem stateStep2_st2impactReset (s : FDState) (m : SensorTick) :
    StateStep2 s (st2impactReset s m) := by
  unfold st2impactReset; split <;> exact Or.inl rfl

theorem stateStep2_st2veryHigh (s : FDState) (t : ℕ) :
    StateStep2 s (st2veryHigh s t) := by
  simp only [st2veryHigh]; split <;> exact Or.inr (Or.inl rfl)

theorem stateStep2_st2medium (s : FDState) (t : ℕ) :
    StateStep2 s (st2medium s t) := by
  simp only [st2medium]; repeat' split
  all_goals first
    | exact Or.inr (Or.inl rfl)
    | exact Or.inl rfl

theorem stateStep2_st2decay (s : FDState) :
    StateStep2 s (st2decay s) := by
  simp only [st2decay]; split
  · exact Or.inr (Or.inr rfl)
  · exact Or.inl rfl

theorem stateStep2_st2chain (s : FDState) (m : SensorTick) :
    StateStep2 s (st2chain s m) := by
  unfold st2chain; repeat' split
  · exact stateStep2_st2veryHigh _ _
  · exact stateStep2_st2medium _ _
  · exact Or.inl rfl
  · exact stateStep2_st2decay _

theorem stateStep2_stage2 (s : FDState) (m : SensorTick) :
    StateStep2 s (stage2 s m) := by
  unfold stage2
  exact stateStep2_trans (stateStep2_trans (stateStep2_trans (stateStep2_trans
    (stateStep2_trans (stateStep2_st2book s m) (stateStep2_st2freefall _ _))
    (stateStep2_st2freefallReset _ _)) (stateStep2_st2impact _ _))
    (stateStep2_st2impactReset _ _)) (stateStep2_st2chain _ _)

theorem stage3_state (s : FDState) (m : SensorTick) :
    (stage3 s m).current_state = s.current_state := by
  unfold stage3; repeat' split
  all_goals rfl

theorem stage4_fst_state (s : FDState) (m : SensorTick) (dt : ℚ) :
    (stage4 s m dt).1.current_state = s.current_state := by
  unfold stage4; split <;> rfl

/-- Stage 5 either leaves the state alone, fires a WARNING→NORMAL reset, or
confirms the fall. -/
theorem stage5_cases (s : FDState) (m : SensorTick) (r p : Bool) :
    stage5 s m r p = (s, false, false) ∨
    stage5 s m r p = (resetWarning s, true, false) ∨
    stage5 s m r p = (resetWarning s, false, false) ∨
    stage5 s m r p = (confirmFall s m.current_time, false, true) := by
  unfold stage5; repeat' split
  all_goals simp

/-- The bowing early return is exactly the `resetWarning` outcome. -/
theorem stage5_early (s : FDState) (m : SensorTick) (r p : Bool)
    (h : (stage5 s m r p).2.1 = true) :
    (stage5 s m r p).1 = resetWarning s := by
  rcases stage5_cases s m r p with h4 | h4 | h4 | h4 <;>
    rw [h4] <;> rw [h4] at h <;> simp_all

/-- `checkAppend` leaves the classifier state, timers and stage counters
alone and never shrinks the fill count. -/
theorem checkAppend_frame (s : FDState) (svm av : ℚ) (t : ℕ) :
    (checkAppend s svm av t).current_state = s.current_state ∧
    (checkAppend s svm av t).state_change_time = s.state_change_time ∧
    (checkAppend s svm av t).last_fall_time = s.last_fall_time ∧
    (checkAppend s svm av t).impact_counter = s.impact_counter ∧
    (checkAppend s svm av t).warning_counter = s.warning_counter ∧
    (checkAppend s svm av t).gyro_sustained_counter = s.gyro_sustained_counter ∧
    (checkAppend s svm av t).detected_freefall = s.detected_freefall ∧
    (checkAppend s svm av t).detected_impact = s.detected_impact ∧
    (checkAppend s svm av t).detected_rotation = s.detected_rotation ∧
    (checkAppend s svm av t).latest_event = s.latest_event ∧
    s.sample_count ≤ (checkAppend s svm av t).sample_count := by
  simp only [checkAppend]; split <;> simp

/-- `checkEvaluate` touches only the immobility verdict fields. -/
theorem checkEvaluate_frame (s : FDState) (t : ℕ) :
    (checkEvaluate s t).current_state = s.current_state ∧
    (checkEvaluate s t).state_change_time = s.state_change_time ∧
    (checkEvaluate s t).last_fall_time = s.last_fall_time ∧
    (checkEvaluate s t).impact_counter = s.impact_counter ∧
    (checkEvaluate s t).warning_counter = s.warning_counter ∧
    (checkEvaluate s t).gyro_sustained_counter = s.gyro_sustained_counter ∧
    (checkEvaluate s t).detected_freefall = s.detected_freefall ∧
    (checkEvaluate s t).detected_impact = s.detected_impact ∧
    (checkEvaluate s t).detected_rotation = s.detected_rotation ∧
    (checkEvaluate s t).sample_count = s.sample_count := by
  simp only [checkEvaluate]; repeat' split
  all_goals simp

/-- `checkPostFallMovement` never changes the classifier state, its timers
or the stage counters. -/
theorem check_frame (s : FDState) (svm av : ℚ) (t : ℕ) :
    (checkPostFallMovement s svm av t).current_state = s.current_state ∧
    (checkPostFallMovement s svm av t).state_change_time = s.state_change_time ∧
    (checkPostFallMovement s svm av t).last_fall_time = s.last_fall_time ∧
    (checkPostFallMovement s svm av t).impact_counter = s.impact_counter ∧
    (checkPostFallMovement s svm av t).warning_counter = s.warning_counter ∧
    (checkPostFallMovement s svm av t).gyro_sustained_counter =
      s.gyro_sustained_counter ∧
    (checkPostFallMovement s svm av t).detected_freefall = s.detected_freefall ∧
    (checkPostFallMovement s svm av t).detected_impact = s.detected_impact ∧
    (checkPostFallMovement s svm av t).detected_rotation = s.detected_rotation := by
  unfold checkPostFallMovement
  split
  · exact ⟨rfl, rfl, rfl, rfl, rfl, rfl, rfl, rfl, rfl⟩
  · have ha := checkAppend_frame s svm av t
    split
    · simp_all
    · have he := checkEvaluate_frame (checkAppend s svm av t) t
      simp_all

/-- The window fill count never decreases across a sampling call. -/
theorem check_count_mono (s : FDState) (svm av : ℚ) (t : ℕ) :
    s.sample_count ≤ (checkPostFallMovement s svm av t).sample_count := by
  unfold checkPostFallMovement
  split
  · exact le_refl _
  · have ha := (checkAppend_frame s svm av t).2.2.2.2.2.2.2.2.2.2
    split
    · simpa using ha
    · have he := (checkEvaluate_frame (checkAppend s svm av t) t).2.2.2.2.2.2.2.2.2
      omega

/-- Window-fill soundness of one sampling call: if the window still is not
full afterwards, the immobility flag cannot be raised (given it was sound
before). -/
theorem check_inv1 (s : FDState) (svm av : ℚ) (t : ℕ)
    (h : s.sample_count < IMMOBILITY_SAMPLE_COUNT →
      s.latest_event.is_immobile = false) :
    (checkPostFallMovement s svm av t).sample_count < IMMOBILITY_SAMPLE_COUNT →
    (checkPostFallMovement s svm av t).latest_event.is_immobile = false := by
  unfold checkPostFallMovement
  split
  · exact h
  · split
    · intro _; simp
    · have he := (checkEvaluate_frame (checkAppend s svm av t) t).2.2.2.2.2.2.2.2.2
      omega

/-- A raised immobility flag after a sampling call implies a full window
(given window-fill soundness before the call). -/
theorem check_imm_count (s : FDState) (svm av : ℚ) (t : ℕ)
    (h : s.sample_count < IMMOBILITY_SAMPLE_COUNT →
      s.latest_event.is_immobile = false)
    (hi : (checkPostFallMovement s svm av t).latest_event.is_immobile = true) :
    IMMOBILITY_SAMPLE_COUNT ≤ (checkPostFallMovement s svm av t).sample_count := by
  revert hi
  unfold checkPostFallMovement
  split
  · intro hi
    by_contra hlt
    rw [h (by omega)] at hi
    exact Bool.false_ne_true hi
  · split
    · intro hi
      simp at hi
    · intro _
      have he := (checkEvaluate_frame (checkAppend s svm av t) t).2.2.2.2.2.2.2.2.2
      omega

/-- `stage6` is a no-op unless the state is FALL_DETECTED. -/
theorem stage6_id_not (s : FDState) (m : SensorTick)
    (h : s.current_state ≠ FallState.fallDetected) : stage6 s m = s := by
  unfold stage6
  rw [if_neg]
  simp [h]

/-- `stage6` is a no-op right after a confirmation in the same call: the
grace-period gate `now - state_change_time > 500` cannot pass when
`state_change_time = now`. -/
theorem stage6_id_fresh (s : FDState) (m : SensorTick)
    (h : s.state_change_time = m.current_time) : stage6 s m = s := by
  unfold stage6
  rw [if_neg]
  rw [h, u32sub_self]
  simp [FALL_CONFIRMATION_WINDOW]

/-- `stage7` is a no-op unless the state is DANGEROUS. -/
theorem stage7_id_not (s : FDState) (m : SensorTick)
    (h : s.current_state ≠ FallState.dangerous) : stage7 s m = s := by
  unfold stage7
  rw [if_neg h]

/-- `stage8` is a no-op unless the state is RECOVERY. -/
theorem stage8_id_not (s : FDState) (m : SensorTick)
    (h : s.current_state ≠ FallState.recovery) : stage8 s m = s := by
  unfold stage8
  rw [if_neg]
  simp [h]

/-- `finalizeEvent` changes only the reported event, not the classifier
fields. -/
theorem finalize_frame (s : FDState) (m : SensorTick) (c : Bool) :
    (finalizeEvent s m c).current_state = s.current_state ∧
    (finalizeEvent s m c).sample_count = s.sample_count ∧
    (finalizeEvent s m c).latest_event.is_immobile =
      s.latest_event.is_immobile ∧
    (finalizeEvent s m c).impact_counter = s.impact_counter ∧
    (finalizeEvent s m c).warning_counter = s.warning_counter ∧
    (finalizeEvent s m c).gyro_sustained_counter = s.gyro_sustained_counter ∧
    (finalizeEvent s m c).detected_freefall = s.detected_freefall ∧
    (finalizeEvent s m c).detected_impact = s.detected_impact ∧
    (finalizeEvent s m c).detected_rotation = s.detected_rotation ∧
    (finalizeEvent s m c).last_fall_time = s.last_fall_time := by
  unfold finalizeEvent
  exact ⟨rfl, rfl, rfl, rfl, rfl, rfl, rfl, rfl, rfl, rfl⟩

/-- The immobility soundness invariant of the detector: the flag is only
raised on a full window, and it is always lowered while in RECOVERY. -/
def InvFD (s : FDState) : Prop :=
  (s.sample_count < IMMOBILITY_SAMPLE_COUNT →
    s.latest_event.is_immobile = false) ∧
  (s.current_state = FallState.recovery → s.latest_event.is_immobile = false)

theorem invFD_init : InvFD FDState.init :=
  ⟨fun _ => rfl, fun _ => rfl⟩

theorem invFD_calibrate (s : FDState) (p r : ℚ) (h : InvFD s) :
    InvFD (calibrate s p r) := h

theorem invFD_reset (s : FDState) (h : InvFD s) :
    InvFD (resetDetector s) :=
  ⟨fun _ => rfl, fun _ => rfl⟩

theorem invFD_of_sameImmb {a b : FDState} (hi : InvFD a) (hs : SameImmb a b)
    (hst : b.current_state = FallState.recovery →
      a.current_state = FallState.recovery) : InvFD b := by
  obtain ⟨h1, h2⟩ := hs
  exact ⟨fun h => h2.trans (hi.1 (h1 ▸ h)), fun h => h2.trans (hi.2 (hst h))⟩

theorem stateStep2_recovery {a b : FDState} (h : StateStep2 a b)
    (hr : b.current_state = FallState.recovery) :
    a.current_state = FallState.recovery := by
  rcases h with h | h | h
  · exact h ▸ hr
  · rw [h] at hr; exact absurd hr (by simp)
  · rw [h] at hr; exact absurd hr (by simp)

theorem invFD_stage2 (s : FDState) (m : SensorTick) (h : InvFD s) :
    InvFD (stage2 s m) :=
  invFD_of_sameImmb h (sameImmb_stage2 s m)
    (stateStep2_recovery (stateStep2_stage2 s m))

theorem invFD_stage3 (s : FDState) (m : SensorTick) (h : InvFD s) :
    InvFD (stage3 s m) :=
  invFD_of_sameImmb h (sameImmb_stage3 s m)
    (fun hr => (stage3_state s m) ▸ hr)

theorem invFD_stage4 (s : FDState) (m : SensorTick) (dt : ℚ) (h : InvFD s) :
    InvFD (stage4 s m dt).1 :=
  invFD_of_sameImmb h (sameImmb_stage4 s m dt)
    (fun hr => (stage4_fst_state s m dt) ▸ hr)

theorem invFD_stage5 (s : FDState) (m : SensorTick) (r p : Bool) (h : InvFD s) :
    InvFD (stage5 s m r p).1 := by
  refine invFD_of_sameImmb h (sameImmb_stage5 s m r p) (fun hr => ?_)
  rcases stage5_cases s m r p with h4 | h4 | h4 | h4 <;> rw [h4] at hr
  · exact hr
  · exact absurd hr (by simp [resetWarning])
  · exact absurd hr (by simp [resetWarning])
  · exact absurd hr (by simp [confirmFall])

theorem invFD_stage6 (s : FDState) (m : SensorTick) (h : InvFD s) :
    InvFD (stage6 s m) := by
  unfold stage6
  split
  · split
    · split
      · constructor
        · intro hlt
          simp only at hlt
          omega
        · intro hr
          exact absurd hr (by simp)
      · constructor
        · intro _
          simpa using (by assumption : ¬(checkPostFallMovement s m.svm
              m.angular_vel m.current_time).latest_event.is_immobile = true)
        · intro _
          simpa using (by assumption : ¬(checkPostFallMovement s m.svm
              m.angular_vel m.current_time).latest_event.is_immobile = true)
    · constructor
      · exact check_inv1 s m.svm m.angular_vel m.current_time h.1
      · intro hr
        have hst := (check_frame s m.svm m.angular_vel m.current_time).1
        rw [hst] at hr
        have : s.current_state = FallState.fallDetected := by
          exact (by assumption :
            s.current_state = FallState.fallDetected ∧ _).1
        rw [this] at hr
        exact absurd hr (by simp)
  · exact h

theorem invFD_stage7 (s : FDState) (m : SensorTick) (h : InvFD s) :
    InvFD (stage7 s m) := by
  unfold stage7
  split
  · split
    · constructor
      · intro _
        simpa using (by assumption : ¬(checkPostFallMovement s m.svm
            m.angular_vel m.current_time).latest_event.is_immobile = true)
      · intro _
        simpa using (by assumption : ¬(checkPostFallMovement s m.svm
            m.angular_vel m.current_time).latest_event.is_immobile = true)
    · constructor
      · intro hlt
        have := check_imm_count s m.svm m.angular_vel m.current_time h.1
          (by simpa using (by assumption :
            ¬¬(checkPostFallMovement s m.svm m.angular_vel
              m.current_time).latest_event.is_immobile = true))
        omega
      · intro hr
        have hst := (check_frame s m.svm m.angular_vel m.current_time).1
        rw [hst] at hr
        rw [(by assumption : s.current_state = FallState.dangerous)] at hr
        exact absurd hr (by simp)
  · exact h

theorem invFD_stage8 (s : FDState) (m : SensorTick) (h : InvFD s) :
    InvFD (stage8 s m) := by
  unfold stage8
  split
  · constructor
    · intro _
      exact h.2 (by exact (by assumption :
        s.current_state = FallState.recovery ∧ _).1)
    · intro hr
      exact absurd hr (by simp)
  · exact h

theorem invFD_finalize (s : FDState) (m : SensorTick) (c : Bool)
    (h : InvFD s) : InvFD (finalizeEvent s m c) := by
  have hf := finalize_frame s m c
  exact ⟨fun hlt => hf.2.2.1.trans (h.1 (hf.2.1 ▸ hlt)),
    fun hr => hf.2.2.1.trans (h.2 (hf.1 ▸ hr))⟩

/-- `detectFall` preserves the immobility soundness invariant. -/
theorem invFD_step (s : FDState) (m : SensorTick) (h : InvFD s) :
    InvFD (detectFall s m).1 := by
  have h4 := invFD_stage4 (stage3 (stage2 s m) m) m (dtOf s m.current_time)
    (invFD_stage3 (stage2 s m) m (invFD_stage2 s m h))
  have h5 := invFD_stage5
    (stage4 (stage3 (stage2 s m) m) m (dtOf s m.current_time)).1 m
    (stage4 (stage3 (stage2 s m) m) m (dtOf s m.current_time)).2.2
    (stage4 (stage3 (stage2 s m) m) m (dtOf s m.current_time)).2.1 h4
  simp only [detectFall]
  split
  · exact h5
  · exact invFD_finalize _ m _
      (invFD_stage8 _ m (invFD_stage7 _ m (invFD_stage6 _ m h5)))

/-- Every reachable detector state satisfies the invariant. -/
theorem invFD_reachable (s : FDState) (h : ReachableFD s) : InvFD s := by
  induction h with
  | init => exact invFD_init
  | step s m _ ih => exact invFD_step s m ih
  | calib s p r _ ih => exact invFD_calibrate s p r ih
  | rst s _ ih => exact invFD_reset s ih

/-- DANGEROUS/RECOVERY states come with a full immobility window. -/
def DCnt (s : FDState) : Prop :=
  (s.current_state = FallState.dangerous ∨
   s.current_state = FallState.recovery) →
  IMMOBILITY_SAMPLE_COUNT ≤ s.sample_count

theorem dcnt_of_state (s : FDState)
    (h : s.current_state = FallState.normal ∨
         s.current_state = FallState.warning ∨
         s.current_state = FallState.fallDetected) : DCnt s := by
  intro hc
  rcases h with h | h | h <;> rcases hc with hc | hc <;>
    rw [h] at hc <;> exact absurd hc (by simp)

/-- A FALL_DETECTED state only moves to DANGEROUS or RECOVERY through
stage 6 with a full window. -/
theorem dcnt_stage6_of_fallDetected (s : FDState) (m : SensorTick)
    (h : s.current_state = FallState.fallDetected) : DCnt (stage6 s m) := by
  unfold stage6
  split
  · split
    · split
      · intro _
        simpa using (by assumption : IMMOBILITY_SAMPLE_COUNT ≤
          (checkPostFallMovement s m.svm m.angular_vel
            m.current_time).sample_count)
      · intro _
        simpa using (by assumption : IMMOBILITY_SAMPLE_COUNT ≤
          (checkPostFallMovement s m.svm m.angular_vel
            m.current_time).sample_count)
    · apply dcnt_of_state
      right; right
      rw [(check_frame s m.svm m.angular_vel m.current_time).1, h]
  · exact dcnt_of_state s (Or.inr (Or.inr h))

theorem dcnt_stage7 (s : FDState) (m : SensorTick) (h : DCnt s) :
    DCnt (stage7 s m) := by
  unfold stage7
  split
  · have hd : s.current_state = FallState.dangerous := by assumption
    have h10 := h (Or.inl hd)
    have hmono := check_count_mono s m.svm m.angular_vel m.current_time
    split
    · intro _
      simp only
      omega
    · intro _
      omega
  · exact h

theorem dcnt_stage8 (s : FDState) (m : SensorTick) (h : DCnt s) :
    DCnt (stage8 s m) := by
  unfold stage8
  split
  · intro hc
    rcases hc with hc | hc <;> exact absurd hc (by simp)
  · exact h

theorem dcnt_finalize (s : FDState) (m : SensorTick) (c : Bool) (h : DCnt s) :
    DCnt (finalizeEvent s m c) := by
  have hf := finalize_frame s m c
  intro hc
  rw [hf.2.1]
  exact h (by rw [← hf.1]; exact hc)

/-- One call of `detectFall` out of FALL_DETECTED only lands in DANGEROUS
or RECOVERY with a full immobility window. -/
theorem dcnt_detectFall (s : FDState) (m : SensorTick)
    (h : s.current_state = FallState.fallDetected) :
    DCnt (detectFall s m).1 := by
  have hstA : (stage4 (stage3 (stage2 s m) m) m
      (dtOf s m.current_time)).1.current_state = (stage2 s m).current_state := by
    rw [stage4_fst_state, stage3_state]
  have hA : (stage4 (stage3 (stage2 s m) m) m
      (dtOf s m.current_time)).1.current_state = FallState.fallDetected ∨
      (stage4 (stage3 (stage2 s m) m) m
        (dtOf s m.current_time)).1.current_state = FallState.warning ∨
      (stage4 (stage3 (stage2 s m) m) m
        (dtOf s m.current_time)).1.current_state = FallState.normal := by
    rcases stateStep2_stage2 s m with h2 | h2 | h2
    · exact Or.inl (hstA.trans (h2.trans h))
    · exact Or.inr (Or.inl (hstA.trans h2))
    · exact Or.inr (Or.inr (hstA.trans h2))
  have hdc6 : DCnt (stage6 (stage4 (stage3 (stage2 s m) m) m
      (dtOf s m.current_time)).1 m) := by
    rcases hA with hA | hA | hA
    · exact dcnt_stage6_of_fallDetected _ m hA
    · rw [stage6_id_not _ m (by rw [hA]; simp)]
      exact dcnt_of_state _ (Or.inr (Or.inl hA))
    · rw [stage6_id_not _ m (by rw [hA]; simp)]
      exact dcnt_of_state _ (Or.inl hA)
  simp only [detectFall]
  rcases stage5_cases (stage4 (stage3 (stage2 s m) m) m
      (dtOf s m.current_time)).1 m
      (stage4 (stage3 (stage2 s m) m) m (dtOf s m.current_time)).2.2
      (stage4 (stage3 (stage2 s m) m) m (dtOf s m.current_time)).2.1
    with h5 | h5 | h5 | h5 <;> rw [h5] <;> simp only [Bool.false_eq_true,
      if_false, if_true, reduceIte]
  · exact dcnt_finalize _ m _ (dcnt_stage8 _ m (dcnt_stage7 _ m hdc6))
  · exact dcnt_of_state _ (Or.inl rfl)
  · rw [stage6_id_not _ m (by simp [resetWarning])]
    exact dcnt_finalize _ m _ (dcnt_stage8 _ m (dcnt_stage7 _ m
      (dcnt_of_state _ (Or.inl rfl))))
  · rw [stage6_id_fresh _ m (by simp [confirmFall])]
    exact dcnt_finalize _ m _ (dcnt_stage8 _ m (dcnt_stage7 _ m
      (dcnt_of_state _ (Or.inr (Or.inr rfl)))))

/-- Calibration data, rotation counter and posture statics that stage 2
never touches. -/
def Frame2 (a b : FDState) : Prop :=
  b.is_calibrated = a.is_calibrated ∧
  b.gyro_sustained_counter = a.gyro_sustained_counter ∧
  b.baseline_pitch = a.baseline_pitch ∧
  b.baseline_roll = a.baseline_roll ∧
  b.prev_pitch = a.prev_pitch ∧
  b.prev_roll = a.prev_roll

theorem frame2_refl (a : FDState) : Frame2 a a :=
  ⟨rfl, rfl, rfl, rfl, rfl, rfl⟩

theorem frame2_trans {a b c : FDState} (h1 : Frame2 a b) (h2 : Frame2 b c) :
    Frame2 a c :=
  ⟨h2.1.trans h1.1, h2.2.1.trans h1.2.1, h2.2.2.1.trans h1.2.2.1,
   h2.2.2.2.1.trans h1.2.2.2.1, h2.2.2.2.2.1.trans h1.2.2.2.2.1,
   h2.2.2.2.2.2.trans h1.2.2.2.2.2⟩

theorem frame2_st2book (s : FDState) (m : SensorTick) :
    Frame2 s (st2book s m) := ⟨rfl, rfl, rfl, rfl, rfl, rfl⟩

theorem frame2_st2freefall (s : FDState) (m : SensorTick) :
    Frame2 s (st2freefall s m) := by
  unfold st2freefall; split <;> exact ⟨rfl, rfl, rfl, rfl, rfl, rfl⟩

theorem frame2_st2freefallReset (s : FDState) (m : SensorTick) :
    Frame2 s (st2freefallReset s m) := by
  unfold st2freefallReset; split <;> exact ⟨rfl, rfl, rfl, rfl, rfl, rfl⟩

theorem frame2_st2impactInc (s : FDState) (t : ℕ) :
    Frame2 s (st2impactInc s t) := by
  unfold st2impactInc; split <;> exact ⟨rfl, rfl, rfl, rfl, rfl, rfl⟩

theorem frame2_st2impactWarn (s : FDState) (t : ℕ) :
    Frame2 s (st2impactWarn s t) := by
  unfold st2impactWarn; split <;> exact ⟨rfl, rfl, rfl, rfl, rfl, rfl⟩

theorem frame2_st2impact (s : FDState) (m : SensorTick) :
    Frame2 s (st2impact s m) := by
  unfold st2impact; split
  · have h1 : Frame2 s
        { s with detected_impact := true, impact_time := m.current_time } :=
      ⟨rfl, rfl, rfl, rfl, rfl, rfl⟩
    exact frame2_trans (frame2_trans h1 (frame2_st2impactInc _ _))
      (frame2_st2impactWarn _ _)
  · exact frame2_refl s

theorem frame2_st2impactReset (s : FDState) (m : SensorTick) :
    Frame2 s (st2impactReset s m) := by
  unfold st2impactReset; split <;> exact ⟨rfl, rfl, rfl, rfl, rfl, rfl⟩

theorem frame2_st2veryHigh (s : FDState) (t : ℕ) :
    Frame2 s (st2veryHigh s t) := by
  simp only [st2veryHigh]; split <;> exact ⟨rfl, rfl, rfl, rfl, rfl, rfl⟩

theorem frame2_st2medium (s : FDState) (t : ℕ) :
    Frame2 s (st2medium s t) := by
  simp only [st2medium]; repeat' split
  all_goals exact ⟨rfl, rfl, rfl, rfl, rfl, rfl⟩

theorem frame2_st2decay (s : FDState) :
    Frame2 s (st2decay s) := by
  simp only [st2decay]; split <;> exact ⟨rfl, rfl, rfl, rfl, rfl, rfl⟩

theorem frame2_st2chain (s : FDState) (m : SensorTick) :
    Frame2 s (st2chain s m) := by
  unfold st2chain; repeat' split
  · exact frame2_st2veryHigh _ _
  · exact frame2_st2medium _ _
  · exact ⟨rfl, rfl, rfl, rfl, rfl, rfl⟩
  · exact frame2_st2decay _

theorem frame2_stage2 (s : FDState) (m : SensorTick) :
    Frame2 s (stage2 s m) := by
  unfold stage2
  exact frame2_trans (frame2_trans (frame2_trans (frame2_trans
    (frame2_trans (frame2_st2book s m) (frame2_st2freefall _ _))
    (frame2_st2freefallReset _ _)) (frame2_st2impact _ _))
    (frame2_st2impactReset _ _)) (frame2_st2chain _ _)

/-- Fields of stage 3 that stay put: everything except the rotation
counter and flag. -/
theorem stage3_frame (s : FDState) (m : SensorTick) :
    (stage3 s m).is_calibrated = s.is_calibrated ∧
    (stage3 s m).warning_start_time = s.warning_start_time ∧
    (stage3 s m).detected_freefall = s.detected_freefall ∧
    (stage3 s m).baseline_pitch = s.baseline_pitch ∧
    (stage3 s m).baseline_roll = s.baseline_roll ∧
    (stage3 s m).prev_pitch = s.prev_pitch ∧
    (stage3 s m).prev_roll = s.prev_roll := by
  unfold stage3; repeat' split
  all_goals exact ⟨rfl, rfl, rfl, rfl, rfl, rfl, rfl⟩

/-- Fields of the stage-4 state output that stay put. -/
theorem stage4_fst_frame (s : FDState) (m : SensorTick) (dt : ℚ) :
    (stage4 s m dt).1.is_calibrated = s.is_calibrated ∧
    (stage4 s m dt).1.gyro_sustained_counter = s.gyro_sustained_counter ∧
    (stage4 s m dt).1.warning_start_time = s.warning_start_time ∧
    (stage4 s m dt).1.detected_freefall = s.detected_freefall := by
  unfold stage4; split <;> exact ⟨rfl, rfl, rfl, rfl⟩

/-- The chain arms never touch `detected_freefall`. -/
theorem st2veryHigh_ff (s : FDState) (t : ℕ) :
    (st2veryHigh s t).detected_freefall = s.detected_freefall := by
  simp only [st2veryHigh]; split <;> rfl

theorem st2medium_ff (s : FDState) (t : ℕ) :
    (st2medium s t).detected_freefall = s.detected_freefall := by
  simp only [st2medium]; repeat' split
  all_goals rfl

theorem st2decay_ff (s : FDState) :
    (st2decay s).detected_freefall = s.detected_freefall := by
  simp only [st2decay]; split <;> rfl

theorem st2chain_ff (s : FDState) (m : SensorTick) :
    (st2chain s m).detected_freefall = s.detected_freefall := by
  unfold st2chain; repeat' split
  · exact st2veryHigh_ff s _
  · exact st2medium_ff s _
  · rfl
  · exact st2decay_ff s

/-- With the SVM at or above the free-fall threshold and no free-fall phase
pending, stage 2 leaves `detected_freefall` false. -/
theorem stage2_ff_false (s : FDState) (m : SensorTick)
    (hff : s.detected_freefall = false)
    (hsvm : SVM_THRESHOLD_LOW ≤ m.svm) :
    (stage2 s m).detected_freefall = false := by
  unfold stage2
  have h1 : (st2book s m).detected_freefall = false := hff
  have h2 : (st2freefall (st2book s m) m) = st2book s m := by
    unfold st2freefall
    rw [if_neg]
    simp [not_lt.mpr hsvm]
  rw [h2]
  have h3 : (st2freefallReset (st2book s m) m) = st2book s m := by
    unfold st2freefallReset
    rw [if_neg]
    simp [h1]
  rw [h3]
  have h4 : (st2impact (st2book s m) m).detected_freefall = false := by
    unfold st2impact st2impactWarn st2impactInc
    repeat' split
    all_goals simpa using h1
  have h5 : (st2impactReset (st2impact (st2book s m) m) m).detected_freefall
      = false := by
    unfold st2impactReset; split
    · simpa using h4
    · exact h4
  rw [st2chain_ff]
  exact h5

/-- From WARNING with a nonzero warning-start time, the pre-chain part of
stage 2 keeps both. -/
theorem st2pre_c4 (s : FDState) (m : SensorTick)
    (hw : s.current_state = FallState.warning) :
    (st2impactReset (st2impact (st2freefallReset (st2freefall (st2book s m) m)
        m) m) m).current_state = FallState.warning ∧
    (st2impactReset (st2impact (st2freefallReset (st2freefall (st2book s m) m)
        m) m) m).warning_start_time = s.warning_start_time := by
  have h0 : (st2book s m).current_state = FallState.warning ∧
      (st2book s m).warning_start_time = s.warning_start_time := ⟨hw, rfl⟩
  have h1 : (st2freefall (st2book s m) m).current_state = FallState.warning ∧
      (st2freefall (st2book s m) m).warning_start_time =
        s.warning_start_time := by
    unfold st2freefall; split
    · exact ⟨h0.1, h0.2⟩
    · exact h0
  have h2 : (st2freefallReset (st2freefall (st2book s m) m) m).current_state
        = FallState.warning ∧
      (st2freefallReset (st2freefall (st2book s m) m) m).warning_start_time
        = s.warning_start_time := by
    unfold st2freefallReset; split
    · exact ⟨h1.1, h1.2⟩
    · exact h1
  have h3 : (st2impact (st2freefallReset (st2freefall (st2book s m) m) m)
        m).current_state = FallState.warning ∧
      (st2impact (st2freefallReset (st2freefall (st2book s m) m) m)
        m).warning_start_time = s.warning_start_time := by
    unfold st2impact st2impactWarn st2impactInc
    repeat' split
    all_goals simp_all
  unfold st2impactReset; split
  · exact ⟨h3.1, h3.2⟩
  · exact h3

/-- Chain arms from WARNING with nonzero start time. -/
theorem st2veryHigh_c4 (s : FDState) (t : ℕ)
    (hwst : s.warning_start_time ≠ 0) :
    (st2veryHigh s t).current_state = FallState.warning ∧
    (st2veryHigh s t).warning_start_time = s.warning_start_time := by
  simp only [st2veryHigh]; split
  · simp_all
  · exact ⟨rfl, rfl⟩

theorem st2medium_c4 (s : FDState) (t : ℕ)
    (hw : s.current_state = FallState.warning)
    (hwst : s.warning_start_time ≠ 0) :
    (st2medium s t).current_state = FallState.warning ∧
    (st2medium s t).warning_start_time = s.warning_start_time := by
  simp only [st2medium]; repeat' split
  all_goals simp_all

theorem st2decay_c4 (s : FDState)
    (hw : s.current_state = FallState.warning) :
    (st2decay s).current_state = FallState.normal ∨
    ((st2decay s).current_state = FallState.warning ∧
     (st2decay s).warning_start_time = s.warning_start_time) := by
  simp only [st2decay]; split
  · exact Or.inl rfl
  · exact Or.inr ⟨hw, rfl⟩

/-- The chain arm of stage 2 from WARNING with nonzero warning-start time:
either a decay back to NORMAL, or WARNING with the start time intact. -/
theorem st2chain_c4 (s : FDState) (m : SensorTick)
    (hw : s.current_state = FallState.warning)
    (hwst : s.warning_start_time ≠ 0) :
    (st2chain s m).current_state = FallState.normal ∨
    ((st2chain s m).current_state = FallState.warning ∧
     (st2chain s m).warning_start_time = s.warning_start_time) := by
  unfold st2chain; repeat' split
  · exact Or.inr (st2veryHigh_c4 s _ hwst)
  · exact Or.inr (st2medium_c4 s _ hw hwst)
  · exact Or.inr ⟨hw, rfl⟩
  · exact st2decay_c4 s hw

/-- Stage 2 under the bowing-scenario hypotheses: WARNING is kept (with its
start time) or decays to NORMAL. -/
theorem stage2_c4 (s : FDState) (m : SensorTick)
    (hw : s.current_state = FallState.warning)
    (hwst : s.warning_start_time ≠ 0) :
    (stage2 s m).current_state = FallState.normal ∨
    ((stage2 s m).current_state = FallState.warning ∧
     (stage2 s m).warning_start_time = s.warning_start_time) := by
  unfold stage2
  have hpre := st2pre_c4 s m hw
  have := st2chain_c4 (st2impactReset (st2impact (st2freefallReset
    (st2freefall (st2book s m) m) m) m) m) m hpre.1 (hpre.2 ▸ hwst)
  rcases this with h | h
  · exact Or.inl h
  · exact Or.inr ⟨h.1, h.2.trans hpre.2⟩

/-- Stage 3 is a no-op when the rotation counter is zero and the angular
velocity is at or below the sustained threshold. -/
theorem stage3_c4 (s : FDState) (m : SensorTick)
    (hg : s.gyro_sustained_counter = 0)
    (hr : m.angular_vel ≤ GYRO_THRESHOLD_SUSTAINED) :
    stage3 s m = s := by
  unfold stage3
  rw [if_neg (not_lt.mpr hr), if_neg (by omega)]

/-- The rapid-posture flag is down when the angle changes and rates are at
or below their thresholds. -/
theorem stage4_rapid_false (s : FDState) (m : SensorTick) (dt : ℚ)
    (h1 : |m.pitch - s.baseline_pitch| ≤ POSTURE_CHANGE_RAPID)
    (h2 : |m.roll - s.baseline_roll| ≤ POSTURE_CHANGE_RAPID)
    (h3 : |m.pitch - s.prev_pitch| / (dt + 1/1000) ≤ 100)
    (h4 : |m.roll - s.prev_roll| / (dt + 1/1000) ≤ 80) :
    (stage4 s m dt).2.2 = false := by
  unfold stage4
  split
  · simp only [decide_eq_false_iff_not]
    push_neg
    exact ⟨h1, h2, h3, h4⟩
  · rfl

/-- Stage 5 does nothing outside WARNING. -/
theorem stage5_not_warning (s : FDState) (m : SensorTick) (r p : Bool)
    (h : s.current_state ≠ FallState.warning) :
    stage5 s m r p = (s, false, false) := by
  unfold stage5
  rw [if_neg h]

/-- Stage 5 under a firing bowing rejection. -/
theorem stage5_bowing (s : FDState) (m : SensorTick) (r p : Bool)
    (hw : s.current_state = FallState.warning)
    (hb : likelyBowing s m.current_time r = true) :
    stage5 s m r p = (resetWarning s, true, false) := by
  unfold stage5
  rw [if_pos hw, hb]
  simp

/-- Stage 5 on a confirmed, non-jumping, non-bowing tick. -/
theorem stage5_confirm (s : FDState) (m : SensorTick) (r p : Bool)
    (hw : s.current_state = FallState.warning)
    (hb : likelyBowing s m.current_time r = false)
    (hc : confirmCond s m r p)
    (hj : likelyJumping s = false) :
    stage5 s m r p = (confirmFall s m.current_time, false, true) := by
  unfold stage5
  rw [if_pos hw, hb, hj]
  simp [hc]

/-- Stage 5 in WARNING without bowing, when the confirmation rule does not
fire (no score, or jumping suspected): no early return, and the state stays
WARNING or falls back to NORMAL. -/
theorem stage5_not_confirm (s : FDState) (m : SensorTick) (r p : Bool)
    (hw : s.current_state = FallState.warning)
    (hb : likelyBowing s m.current_time r = false)
    (h : ¬(confirmCond s m r p ∧ likelyJumping s = false)) :
    (stage5 s m r p).2.1 = false ∧
    ((stage5 s m r p).1.current_state = FallState.normal ∨
     (stage5 s m r p).1.current_state = FallState.warning) := by
  unfold stage5
  rw [if_pos hw, hb]
  simp only [Bool.false_eq_true, if_false]
  by_cases hc : confirmCond s m r p
  · have hj : likelyJumping s = true := by
      rcases Bool.eq_false_or_eq_true (likelyJumping s) with hj | hj
      · exact hj
      · exact absurd ⟨hc, hj⟩ h
    rw [if_pos hc, hj]
    simp [hw]
  · rw [if_neg hc]
    split
    · exact ⟨rfl, Or.inl rfl⟩
    · exact ⟨rfl, Or.inr hw⟩

/-- After stage 5, stages 6–8 are no-ops when the state is NORMAL, WARNING
or a fall confirmed in this very call. -/
theorem post_stages_id (x : FDState) (m : SensorTick)
    (h : x.current_state = FallState.normal ∨
         x.current_state = FallState.warning ∨
         (x.current_state = FallState.fallDetected ∧
          x.state_change_time = m.current_time)) :
    stage8 (stage7 (stage6 x m) m) m = x := by
  have h6 : stage6 x m = x := by
    rcases h with h | h | h
    · exact stage6_id_not x m (by rw [h]; simp)
    · exact stage6_id_not x m (by rw [h]; simp)
    · exact stage6_id_fresh x m h.2
  rw [h6]
  have h7 : stage7 x m = x :=
    stage7_id_not x m (by rcases h with h | h | ⟨h, _⟩ <;> rw [h] <;> simp)
  rw [h7]
  exact stage8_id_not x m
    (by rcases h with h | h | ⟨h, _⟩ <;> rw [h] <;> simp)

/-- C2 (amended): from NORMAL, one call of `detectFall` never lands in
DANGEROUS or RECOVERY, whatever the sample. -/
theorem c2_normal_no_dangerous (s : FDState) (m : SensorTick)
    (h : s.current_state = FallState.normal) :
    (detectFall s m).1.current_state ≠ FallState.dangerous ∧
    (detectFall s m).1.current_state ≠ FallState.recovery := by
  have hAstate : (stage4 (stage3 (stage2 s m) m) m
      (dtOf s m.current_time)).1.current_state =
      (stage2 s m).current_state := by
    rw [stage4_fst_state, stage3_state]
  have hA : (stage4 (stage3 (stage2 s m) m) m
        (dtOf s m.current_time)).1.current_state = FallState.normal ∨
      (stage4 (stage3 (stage2 s m) m) m
        (dtOf s m.current_time)).1.current_state = FallState.warning := by
    rcases stateStep2_stage2 s m with h2 | h2 | h2
    · exact Or.inl (hAstate.trans (h2.trans h))
    · exact Or.inr (hAstate.trans h2)
    · exact Or.inl (hAstate.trans h2)
  simp only [detectFall]
  rcases stage5_cases (stage4 (stage3 (stage2 s m) m) m
      (dtOf s m.current_time)).1 m
      (stage4 (stage3 (stage2 s m) m) m (dtOf s m.current_time)).2.2
      (stage4 (stage3 (stage2 s m) m) m (dtOf s m.current_time)).2.1
    with h5 | h5 | h5 | h5 <;> rw [h5] <;>
    simp only [Bool.false_eq_true, if_false, if_true, reduceIte]
  · rw [post_stages_id _ m (hA.elim Or.inl (fun ha => Or.inr (Or.inl ha)))]
    rw [(finalize_frame _ m _).1]
    rcases hA with hA | hA <;> rw [hA] <;> exact ⟨by simp, by simp⟩
  · exact ⟨by simp [resetWarning], by simp [resetWarning]⟩
  · rw [post_stages_id _ m (Or.inl rfl)]
    rw [(finalize_frame _ m _).1]
    exact ⟨by simp [resetWarning], by simp [resetWarning]⟩
  · rw [post_stages_id _ m (Or.inr (Or.inr ⟨rfl, rfl⟩))]
    rw [(finalize_frame _ m _).1]
    exact ⟨by simp [confirmFall], by simp [confirmFall]⟩

/-- C4: bowing rejection.  A calibrated detector in WARNING whose warning
is older than the bowing threshold, with no sustained rotation, no pending
free-fall phase and no rapid posture change, resets to NORMAL (and in
particular never confirms a fall on that call). -/
theorem c4_bowing_rejection (s : FDState) (m : SensorTick)
    (hw : s.current_state = FallState.warning)
    (hcal : s.is_calibrated = true)
    (hgyro : s.gyro_sustained_counter = 0)
    (hrot : m.angular_vel ≤ GYRO_THRESHOLD_SUSTAINED)
    (hff : s.detected_freefall = false)
    (hsvm : SVM_THRESHOLD_LOW ≤ m.svm)
    (hwst : s.warning_start_time ≠ 0)
    (hdur : BOWING_REJECTION_TIME < u32sub m.current_time s.warning_start_time)
    (hpc : |m.pitch - s.baseline_pitch| ≤ POSTURE_CHANGE_RAPID)
    (hrc : |m.roll - s.baseline_roll| ≤ POSTURE_CHANGE_RAPID)
    (hpr : |m.pitch - s.prev_pitch| / (dtOf s m.current_time + 1/1000) ≤ 100)
    (hrr : |m.roll - s.prev_roll| / (dtOf s m.current_time + 1/1000) ≤ 80) :
    (detectFall s m).1.current_state = FallState.normal ∧
    (detectFall s m).1.current_state ≠ FallState.fallDetected := by
  have hf2 := frame2_stage2 s m
  have hff2 := stage2_ff_false s m hff hsvm
  have hg2 : (stage2 s m).gyro_sustained_counter = 0 := hf2.2.1.trans hgyro
  have h3 : stage3 (stage2 s m) m = stage2 s m := stage3_c4 _ m hg2 hrot
  rcases stage2_c4 s m hw hwst with h2 | h2
  · -- decayed to NORMAL during stage 2: the call ends in NORMAL
    have hA : (stage4 (stage3 (stage2 s m) m) m
        (dtOf s m.current_time)).1.current_state = FallState.normal := by
      rw [stage4_fst_state, stage3_state]; exact h2
    simp only [detectFall]
    rw [stage5_not_warning _ m _ _ (by rw [hA]; simp)]
    simp only [Bool.false_eq_true, if_false, reduceIte]
    rw [post_stages_id _ m (Or.inl hA)]
    rw [(finalize_frame _ m _).1]
    exact ⟨hA, by rw [hA]; simp⟩
  · -- still WARNING at stage 5: the bowing rejection fires
    have hrapid : (stage4 (stage3 (stage2 s m) m) m
        (dtOf s m.current_time)).2.2 = false := by
      rw [h3]
      exact stage4_rapid_false (stage2 s m) m _
        (by rw [hf2.2.2.1]; exact hpc)
        (by rw [hf2.2.2.2.1]; exact hrc)
        (by rw [hf2.2.2.2.2.1]; exact hpr)
        (by rw [hf2.2.2.2.2.2]; exact hrr)
    have hAstate : (stage4 (stage3 (stage2 s m) m) m
        (dtOf s m.current_time)).1.current_state = FallState.warning := by
      rw [stage4_fst_state, stage3_state]; exact h2.1
    have hbow : likelyBowing (stage4 (stage3 (stage2 s m) m) m
        (dtOf s m.current_time)).1 m.current_time
        (stage4 (stage3 (stage2 s m) m) m (dtOf s m.current_time)).2.2 = true := by
      rw [hrapid]
      unfold likelyBowing warningDuration
      rw [h3]
      have hAf := stage4_fst_frame (stage2 s m) m (dtOf s m.current_time)
      rw [hAf.1, hf2.1, hcal, hAf.2.1, hg2, hAf.2.2.1, h2.2, hAf.2.2.2, hff2]
      simp [hdur]
    simp only [detectFall]
    rw [stage5_bowing _ m _ _ hAstate hbow]
    simp only [reduceIte]
    exact ⟨rfl, by simp [resetWarning]⟩

/-- The detector state as it enters the stage-5 confirmation logic of
`detectFall` (after the counter, rotation and posture stages of the same
call). -/
def preState (s : FDState) (m : SensorTick) : FDState :=
  (stage4 (stage3 (stage2 s m) m) m (dtOf s m.current_time)).1

/-- The `posture_changed` flag as computed in that call. -/
def postureFlag (s : FDState) (m : SensorTick) : Bool :=
  (stage4 (stage3 (stage2 s m) m) m (dtOf s m.current_time)).2.1

/-- The `rapid_posture_change` flag as computed in that call. -/
def rapidFlag (s : FDState) (m : SensorTick) : Bool :=
  (stage4 (stage3 (stage2 s m) m) m (dtOf s m.current_time)).2.2

/-- C3 (amended): in WARNING, provided the call reaches the confirmation
step still in WARNING and the bowing rejection does not fire,
`detectFall` confirms the fall exactly when the weighted score rule holds
and jumping is not suspected; on that transition the impact, warning and
rotation counters and the sequence flags are reset and `last_fall_time`
is set to the current time. -/
theorem c3_confirmation_rule (s : FDState) (m : SensorTick)
    (hw0 : s.current_state = FallState.warning)
    (hw : (preState s m).current_state = FallState.warning)
    (hb : likelyBowing (preState s m) m.current_time (rapidFlag s m) = false) :
    ((detectFall s m).1.current_state = FallState.fallDetected ↔
      (confirmCond (preState s m) m (rapidFlag s m) (postureFlag s m) ∧
       likelyJumping (preState s m) = false)) ∧
    (confirmCond (preState s m) m (rapidFlag s m) (postureFlag s m) →
     likelyJumping (preState s m) = false →
     (detectFall s m).1.impact_counter = 0 ∧
     (detectFall s m).1.warning_counter = 0 ∧
     (detectFall s m).1.gyro_sustained_counter = 0 ∧
     (detectFall s m).1.detected_freefall = false ∧
     (detectFall s m).1.detected_impact = false ∧
     (detectFall s m).1.detected_rotation = false ∧
     (detectFall s m).1.last_fall_time = m.current_time) := by
  simp only [preState, rapidFlag, postureFlag] at hw hb ⊢
  by_cases hcj : confirmCond (stage4 (stage3 (stage2 s m) m) m
        (dtOf s m.current_time)).1 m
        (stage4 (stage3 (stage2 s m) m) m (dtOf s m.current_time)).2.2
        (stage4 (stage3 (stage2 s m) m) m (dtOf s m.current_time)).2.1 ∧
      likelyJumping (stage4 (stage3 (stage2 s m) m) m
        (dtOf s m.current_time)).1 = false
  · simp only [detectFall]
    rw [stage5_confirm _ m _ _ hw hb hcj.1 hcj.2]
    simp only [Bool.false_eq_true, if_false, reduceIte]
    rw [post_stages_id _ m (Or.inr (Or.inr ⟨rfl, rfl⟩))]
    constructor
    · constructor
      · intro _; exact hcj
      · intro _
        simp [finalizeEvent, confirmFall]
    · intro _ _
      simp [finalizeEvent, confirmFall]
  · have h5 := stage5_not_confirm _ m
      (stage4 (stage3 (stage2 s m) m) m (dtOf s m.current_time)).2.2
      (stage4 (stage3 (stage2 s m) m) m (dtOf s m.current_time)).2.1
      hw hb hcj
    simp only [detectFall]
    rw [h5.1]
    simp only [Bool.false_eq_true, if_false, reduceIte]
    rw [post_stages_id _ m (h5.2.elim Or.inl (fun hh => Or.inr (Or.inl hh)))]
    constructor
    · constructor
      · intro hfd
        rw [(finalize_frame _ m _).1] at hfd
        rcases h5.2 with hh | hh <;> rw [hh] at hfd <;>
          exact absurd hfd (by simp)
      · intro hc
        exact absurd hc hcj
    · intro hc hj
      exact absurd ⟨hc, hj⟩ hcj

/-- A single violent tick fed to a freshly constructed detector: free-fall
level SVM with simultaneous high jerk and high rotation. -/
def c2tick : SensorTick :=
  { jerk_mag := 500000, svm := 1/2, angular_vel := 200, pitch := 0,
    roll := 0, current_time := 100 }

unseal Rat.add Rat.mul Rat.sub Rat.inv Rat.ofScientific in
/-- C2 (counterexample): from NORMAL, a single `detectFall` call CAN land
in FALL_DETECTED — stage 2 moves NORMAL→WARNING and stage 5 of the same
call confirms, so WARNING is not the only one-step successor of NORMAL. -/
theorem c2_counterexample :
    FDState.init.current_state = FallState.normal ∧
    (detectFall FDState.init c2tick).1.current_state =
      FallState.fallDetected := by
  constructor
  · rfl
  · decide

/-- C2 (witness for the amended claim). -/
theorem c2_normal_no_dangerous_witness :
    (detectFall FDState.init c2tick).1.current_state ≠
      FallState.dangerous ∧
    (detectFall FDState.init c2tick).1.current_state ≠
      FallState.recovery :=
  c2_normal_no_dangerous FDState.init c2tick rfl

/-- A calibrated detector two seconds into a WARNING with impact evidence
(score 4 from impact + posture change + high jerk over three criteria) but
no rotation, no free-fall and no rapid posture change. -/
def c3s : FDState :=
  { FDState.init with
    current_state := .warning, warning_start_time := 1000,
    impact_counter := 2, is_calibrated := true, prev_pitch := 50,
    last_sample_time := 2900 }

def c3m : SensorTick :=
  { jerk_mag := 500000, svm := 1, angular_vel := 0, pitch := 50, roll := 0,
    current_time := 3000 }

unseal Rat.add Rat.mul Rat.sub Rat.inv Rat.ofScientific in
/-- C3 (counterexample): the weighted rule (score 4 with 3 criteria, no
jumping) holds at the confirmation step, yet the call does NOT transition
WARNING→FALL_DETECTED — the bowing rejection runs first and resets to
NORMAL.  The claimed "exactly when" is false without the bowing proviso. -/
theorem c3_counterexample :
    c3s.current_state = FallState.warning ∧
    confirmCond (preState c3s c3m) c3m (rapidFlag c3s c3m)
      (postureFlag c3s c3m) ∧
    likelyJumping (preState c3s c3m) = false ∧
    (detectFall c3s c3m).1.current_state = FallState.normal := by
  refine ⟨rfl, ?_, ?_, ?_⟩ <;> decide

/-- A WARNING state with a full free-fall→impact→rotation sequence and
sustained rotation, 100 ms into the warning. -/
def c3ws : FDState :=
  { FDState.init with
    current_state := .warning, warning_start_time := 1000,
    impact_counter := 2, gyro_sustained_counter := 2,
    detected_freefall := true, freefall_time := 1050,
    detected_impact := true, impact_time := 1060, detected_rotation := true,
    last_sample_time := 1050 }

def c3wm : SensorTick :=
  { jerk_mag := 500000, svm := 1, angular_vel := 200, pitch := 0, roll := 0,
    current_time := 1100 }

unseal Rat.add Rat.mul Rat.sub Rat.inv Rat.ofScientific in
/-- C3 (witness for the amended claim): a confirming tick transitions to
FALL_DETECTED, resets the counters and flags, and records the fall time. -/
theorem c3_confirmation_rule_witness :
    (detectFall c3ws c3wm).1.current_state = FallState.fallDetected ∧
    (detectFall c3ws c3wm).1.impact_counter = 0 ∧
    (detectFall c3ws c3wm).1.last_fall_time = 1100 := by
  have h := c3_confirmation_rule c3ws c3wm rfl (by decide) (by decide)
  exact ⟨h.1.mpr ⟨by decide, by decide⟩,
    (h.2 (by decide) (by decide)).1,
    (h.2 (by decide) (by decide)).2.2.2.2.2.2⟩

/-- A calibrated detector two seconds into a WARNING, fed a calm tick. -/
def c4s : FDState :=
  { FDState.init with
    current_state := .warning, warning_start_time := 1000,
    is_calibrated := true, last_sample_time := 2900 }

def c4m : SensorTick :=
  { jerk_mag := 0, svm := 1, angular_vel := 0, pitch := 0, roll := 0,
    current_time := 3000 }

unseal Rat.add Rat.mul Rat.sub Rat.inv Rat.ofScientific in
/-- C4 (witness). -/
theorem c4_bowing_rejection_witness :
    (detectFall c4s c4m).1.current_state = FallState.normal ∧
    (detectFall c4s c4m).1.current_state ≠ FallState.fallDetected :=
  c4_bowing_rejection c4s c4m rfl rfl rfl (by decide) rfl (by decide)
    (by decide) (by decide) (by decide) (by decide) (by decide) (by decide)

/-- C5: immobility requires a full window.  In every reachable detector
state, `latest_event.is_immobile` is false whenever the immobility buffer
holds fewer than `IMMOBILITY_SAMPLE_COUNT` samples; and a call that moves
FALL_DETECTED to DANGEROUS or RECOVERY always ends with a full buffer —
the decision is only made once the window is full. -/
theorem c5_immobility_window :
    (∀ s, ReachableFD s →
      s.sample_count < IMMOBILITY_SAMPLE_COUNT →
      s.latest_event.is_immobile = false) ∧
    (∀ s m, s.current_state = FallState.fallDetected →
      ((detectFall s m).1.current_state = FallState.dangerous ∨
       (detectFall s m).1.current_state = FallState.recovery) →
      IMMOBILITY_SAMPLE_COUNT ≤ (detectFall s m).1.sample_count) :=
  ⟨fun s h => (invFD_reachable s h).1,
   fun s m h hd => dcnt_detectFall s m h hd⟩

/-- A FALL_DETECTED state with a full window of moving samples, past the
grace period: the call decides RECOVERY. -/
def c5s : FDState :=
  { FDState.init with
    current_state := .fallDetected, sample_count := 10,
    last_fall_time := 900 }

def c5m : SensorTick :=
  { jerk_mag := 0, svm := 1, angular_vel := 0, pitch := 0, roll := 0,
    current_time := 1000 }

set_option maxRecDepth 4000 in
unseal Rat.add Rat.mul Rat.sub Rat.inv Rat.ofScientific in
/-- C5 (witness). -/
theorem c5_immobility_window_witness :
    FDState.init.latest_event.is_immobile = false ∧
    IMMOBILITY_SAMPLE_COUNT ≤ (detectFall c5s c5m).1.sample_count :=
  ⟨c5_immobility_window.1 FDState.init ReachableFD.init (by decide),
   c5_immobility_window.2 c5s c5m rfl (Or.inr (by decide))⟩

/-! ## Claims C6, C7, C10 — the relay -/

/-- `updateDisplay` touches only `packetsSkipped` and `needsFullRefresh`. -/
theorem updateDisplayEffect_frame (s : GatewayState) :
    (updateDisplayEffect s).packetsReceived = s.packetsReceived ∧
    (updateDisplayEffect s).lastPacket = s.lastPacket ∧
    (updateDisplayEffect s).lastFrameCounter = s.lastFrameCounter ∧
    (updateDisplayEffect s).lastRxBuffer = s.lastRxBuffer ∧
    (updateDisplayEffect s).lastRxLength = s.lastRxLength := by
  unfold updateDisplayEffect
  repeat' split
  all_goals simp

/-- The two bookkeeping steps of the valid branch keep `lastPacket`. -/
theorem countStep_frame (s : GatewayState) (t : ℕ) :
    (countStep s t).lastPacket = s.lastPacket ∧
    (countStep s t).packetsSkipped = s.packetsSkipped ∧
    (countStep s t).lastRxBuffer = s.lastRxBuffer ∧
    (countStep s t).lastRxLength = s.lastRxLength := by
  unfold countStep; split <;> simp

theorem refreshStep_frame (s : GatewayState) :
    (refreshStep s).lastPacket = s.lastPacket ∧
    (refreshStep s).packetsReceived = s.packetsReceived ∧
    (refreshStep s).lastFrameCounter = s.lastFrameCounter ∧
    (refreshStep s).packetsSkipped = s.packetsSkipped ∧
    (refreshStep s).lastRxBuffer = s.lastRxBuffer ∧
    (refreshStep s).lastRxLength = s.lastRxLength := by
  unfold refreshStep; split <;> simp

/-- A 13-byte packet with invalid packet type 9 (declared before its first
use in the counterexample below). -/
def c6bad : List ℕ := List.replicate 12 7 ++ [9]

/-- C6 (counterexample): when the same invalid packet arrives three times
in a row, the pair formed by its second and third deliveries consists of
two consecutive byte-for-byte identical invalid packets, yet the skip
counter is not incremented at all for that pair (it stays at 1): the
claimed "increments exactly once (for the first)" fails whenever the
first of the pair is itself a duplicate of the stored garbage. -/
theorem c6_counterexample :
    invalidPacket c6bad ∧ c6bad ≠ [] ∧
    (processRadioPacket GatewayState.init c6bad 0).packetsSkipped = 1 ∧
    (processRadioPacket (processRadioPacket GatewayState.init c6bad 0)
      c6bad 1).packetsSkipped = 1 ∧
    (processRadioPacket (processRadioPacket (processRadioPacket
      GatewayState.init c6bad 0) c6bad 1) c6bad 2).packetsSkipped = 1 := by
  refine ⟨Or.inr (Or.inr (by decide)), by decide, by decide, by decide,
    by decide⟩

/-- C6 (amended): for a pair of consecutive identical invalid packets,
provided the packet is nonempty, the first is not itself a duplicate of
the stored invalid packet, and no counter-clearing full display refresh
fires on the first, `packetsSkipped` increments exactly once (for the
first); the second is ignored entirely and neither packet touches
`lastPacket`. -/
theorem c6_duplicate_garbage (s : GatewayState) (p : List ℕ) (t1 t2 : ℕ)
    (hinv : invalidPacket p) (hne : p ≠ [])
    (hfresh : isDuplicateBad s p = false)
    (hdisp : s.displayAvailable = false ∨ s.packetsReceived = 0 ∨
      fullRefreshCond s = false) :
    (processRadioPacket s p t1).packetsSkipped =
      (s.packetsSkipped + 1) % 2 ^ 32 ∧
    processRadioPacket (processRadioPacket s p t1) p t2 =
      processRadioPacket s p t1 ∧
    (processRadioPacket s p t1).lastPacket = s.lastPacket := by
  have hbase : processRadioPacket s p t1 = handleInvalidPacket s p := by
    unfold processRadioPacket
    rcases hinv with h | h | h
    · rw [if_neg (by omega)]
    · rw [if_pos (Or.inl h)]
      split
      · rfl
      · rfl
    · rw [if_pos (Or.inr h)]
      split
      · rfl
      · rfl
  have hstep : handleInvalidPacket s p =
      { s with packetsSkipped := (s.packetsSkipped + 1) % 2 ^ 32,
               lastRxBuffer := p, lastRxLength := p.length } := by
    unfold handleInvalidPacket
    rw [hfresh]
    simp only [Bool.false_eq_true, if_false]
    split
    · rcases hdisp with hd | hd | hd
      · exact absurd (by assumption :
          s.displayAvailable = true ∧ 0 < s.packetsReceived).1
          (by rw [hd]; simp)
      · have := (by assumption :
          s.displayAvailable = true ∧ 0 < s.packetsReceived).2
        omega
      · unfold updateDisplayEffect
        rw [if_neg (by
          simp only [not_not]
          exact (by assumption :
            s.displayAvailable = true ∧ 0 < s.packetsReceived).1)]
        rw [if_neg (by
          show ¬ fullRefreshCond _ = true
          unfold fullRefreshCond at hd ⊢
          simpa using hd)]
    · rfl
  have h1 : processRadioPacket s p t1 =
      { s with packetsSkipped := (s.packetsSkipped + 1) % 2 ^ 32,
               lastRxBuffer := p, lastRxLength := p.length } :=
    hbase.trans hstep
  refine ⟨by rw [h1], ?_, by rw [h1]⟩
  have hdup : isDuplicateBad (processRadioPacket s p t1) p = true := by
    rw [h1]
    unfold isDuplicateBad
    simp [List.length_pos.mpr hne]
  have hbase2 : processRadioPacket (processRadioPacket s p t1) p t2 =
      handleInvalidPacket (processRadioPacket s p t1) p := by
    unfold processRadioPacket
    rcases hinv with h | h | h
    · rw [if_neg (by omega)]
    · rw [if_pos (Or.inl h)]
      split
      · rfl
      · rfl
    · rw [if_pos (Or.inr h)]
      split
      · rfl
      · rfl
  rw [hbase2]
  unfold handleInvalidPacket
  rw [hdup]
  simp

/-- A 13-byte packet with invalid packet type 9. -/
def c6p : List ℕ := List.replicate 12 7 ++ [9]

/-- C6 (witness for the amended claim). -/
theorem c6_duplicate_garbage_witness :
    (processRadioPacket GatewayState.init c6p 0).packetsSkipped =
      (GatewayState.init.packetsSkipped + 1) % 2 ^ 32 ∧
    processRadioPacket (processRadioPacket GatewayState.init c6p 0) c6p 5 =
      processRadioPacket GatewayState.init c6p 0 ∧
    (processRadioPacket GatewayState.init c6p 0).lastPacket =
      GatewayState.init.lastPacket :=
  c6_duplicate_garbage GatewayState.init c6p 0 5
    (Or.inr (Or.inr (by decide))) (by decide) (by decide) (Or.inl rfl)

/-- C7 (counterexample): a valid packet whose frame counter equals the
previously counted one still overwrites `lastPacket` — `parsePacketInfo`
runs before the dedup check — so "updates last-valid … only if its
frameCounter differs" is false: here the stored heart rate changes from 70
to 100 while `packetsReceived` stays put. -/
theorem c7_counterexample :
    ((processRadioPacket
        { GatewayState.init with
          lastFrameCounter := 5, packetsReceived := 7,
          lastPacket := { LastPacketInfo.init with
            frameCounter := 5, heartRate := 70 } }
        (List.replicate 10 0 ++ [5, 0, 1] ++
          [1, 100, 128, 128, 40, 0, 0, 0, 0, 0]) 0).lastPacket.heartRate
      = 100) ∧
    ((processRadioPacket
        { GatewayState.init with
          lastFrameCounter := 5, packetsReceived := 7,
          lastPacket := { LastPacketInfo.init with
            frameCounter := 5, heartRate := 70 } }
        (List.replicate 10 0 ++ [5, 0, 1] ++
          [1, 100, 128, 128, 40, 0, 0, 0, 0, 0]) 0).packetsReceived = 7) := by
  constructor
  · decide
  · decide

/-- C7 (amended): every valid packet is re-parsed into `lastPacket`
unconditionally, while `packetsReceived` and the counted frame counter
update exactly when the parsed frame counter differs from the previously
counted one; a byte-identical redelivery therefore changes neither (the
re-parse is idempotent), but a content-differing packet under the same
frame counter silently rewrites `lastPacket` without being counted. -/
theorem c7_valid_packet_dedup (s : GatewayState) (p : List ℕ) (t : ℕ)
    (hlen : 13 ≤ p.length)
    (htype : p.getD 12 0 % 256 = 1 ∨ p.getD 12 0 % 256 = 2 ∨
      p.getD 12 0 % 256 = 3) :
    (processRadioPacket s p t).lastPacket =
      parsePacketInfo s.lastPacket p p.length ∧
    ((parsePacketInfo s.lastPacket p p.length).frameCounter =
        s.lastFrameCounter →
      (processRadioPacket s p t).packetsReceived = s.packetsReceived ∧
      (processRadioPacket s p t).lastFrameCounter = s.lastFrameCounter) ∧
    ((parsePacketInfo s.lastPacket p p.length).frameCounter ≠
        s.lastFrameCounter →
      (processRadioPacket s p t).packetsReceived =
        (s.packetsReceived + 1) % 2 ^ 32 ∧
      (processRadioPacket s p t).lastFrameCounter =
        (parsePacketInfo s.lastPacket p p.length).frameCounter) := by
  have hvalid : processRadioPacket s p t =
      updateDisplayEffect (refreshStep (countStep
        { s with lastPacket := parsePacketInfo s.lastPacket p p.length } t)) := by
    unfold processRadioPacket
    rw [if_pos hlen, if_neg (by rcases htype with h | h | h <;> rw [h] <;> simp)]
  rw [hvalid]
  have hd := updateDisplayEffect_frame (refreshStep (countStep
    { s with lastPacket := parsePacketInfo s.lastPacket p p.length } t))
  have hr := refreshStep_frame (countStep
    { s with lastPacket := parsePacketInfo s.lastPacket p p.length } t)
  have hc := countStep_frame
    { s with lastPacket := parsePacketInfo s.lastPacket p p.length } t
  refine ⟨?_, ?_, ?_⟩
  · rw [hd.2.1, hr.1, hc.1]
  · intro hfc
    have : countStep
        { s with lastPacket := parsePacketInfo s.lastPacket p p.length } t =
        { s with lastPacket := parsePacketInfo s.lastPacket p p.length } := by
      unfold countStep
      rw [if_neg (by simpa using hfc)]
    rw [hd.1, hd.2.2.1, hr.2.1, hr.2.2.1, this]
    exact ⟨rfl, rfl⟩
  · intro hfc
    have : countStep
        { s with lastPacket := parsePacketInfo s.lastPacket p p.length } t =
        { { s with lastPacket := parsePacketInfo s.lastPacket p p.length } with
          packetsReceived := (s.packetsReceived + 1) % 2 ^ 32,
          needsFullRefresh := true,
          lastPacketMillis := t,
          lastFrameCounter :=
            (parsePacketInfo s.lastPacket p p.length).frameCounter } := by
      unfold countStep
      rw [if_pos (by simpa using hfc)]
    rw [hd.1, hd.2.2.1, hr.2.1, hr.2.2.1, this]
    exact ⟨rfl, rfl⟩

def c7g : GatewayState :=
  { GatewayState.init with
    lastFrameCounter := 9, packetsReceived := 7,
    lastPacket := { LastPacketInfo.init with
      frameCounter := 9, heartRate := 70 } }

def c7p : List ℕ :=
  List.replicate 10 0 ++ [5, 0, 1] ++ [1, 100, 128, 128, 40, 0, 0, 0, 0, 0]

/-- C7 (witness for the amended claim). -/
theorem c7_valid_packet_dedup_witness :
    (processRadioPacket c7g c7p 3).lastPacket =
      parsePacketInfo c7g.lastPacket c7p c7p.length ∧
    ((parsePacketInfo c7g.lastPacket c7p c7p.length).frameCounter =
        c7g.lastFrameCounter →
      (processRadioPacket c7g c7p 3).packetsReceived = c7g.packetsReceived ∧
      (processRadioPacket c7g c7p 3).lastFrameCounter = c7g.lastFrameCounter) ∧
    ((parsePacketInfo c7g.lastPacket c7p c7p.length).frameCounter ≠
        c7g.lastFrameCounter →
      (processRadioPacket c7g c7p 3).packetsReceived =
        (c7g.packetsReceived + 1) % 2 ^ 32 ∧
      (processRadioPacket c7g c7p 3).lastFrameCounter =
        (parsePacketInfo c7g.lastPacket c7p c7p.length).frameCounter) :=
  c7_valid_packet_dedup c7g c7p 3 (by decide) (Or.inl (by decide))

/-- C10: a valid-typed packet shorter than the full payload of its type
(type 1 with total length in [13,22], or type 3 with total length in
[13,57]) refreshes the frame header (device id, frame counter, type) and
clears the three alert flags, but leaves `heartRate`, `temperature`,
`noiseLevel` and `fallState` at their values from the previous packet. -/
theorem c10_short_valid_packet (lp : LastPacketInfo) (p : List ℕ)
    (h13 : 13 ≤ p.length)
    (h : (p.getD 12 0 % 256 = 1 ∧ p.length ≤ 22) ∨
         (p.getD 12 0 % 256 = 3 ∧ p.length ≤ 57)) :
    (parsePacketInfo lp p p.length).deviceId = p.take 10 ∧
    (parsePacketInfo lp p p.length).frameCounter =
      (p.getD 11 0 % 256) * 256 + p.getD 10 0 % 256 ∧
    (parsePacketInfo lp p p.length).type = p.getD 12 0 % 256 ∧
    (parsePacketInfo lp p p.length).hrAlert = false ∧
    (parsePacketInfo lp p p.length).tempAlert = false ∧
    (parsePacketInfo lp p p.length).noiseAlert = false ∧
    (parsePacketInfo lp p p.length).heartRate = lp.heartRate ∧
    (parsePacketInfo lp p p.length).temperature = lp.temperature ∧
    (parsePacketInfo lp p p.length).noiseLevel = lp.noiseLevel ∧
    (parsePacketInfo lp p p.length).fallState = lp.fallState := by
  unfold parsePacketInfo
  rw [if_neg (by omega)]
  rcases h with ⟨ht, hl⟩ | ⟨ht, hl⟩
  · rw [if_neg (by simp only [ht]; omega),
      if_neg (by simp only [ht]; omega),
      if_neg (by simp only [ht]; omega)]
    simp
  · rw [if_neg (by simp only [ht]; omega),
      if_neg (by simp only [ht]; omega),
      if_neg (by simp only [ht]; omega)]
    simp

def c10p : List ℕ := List.replicate 10 3 ++ [2, 1, 1]

def c10lp : LastPacketInfo :=
  { LastPacketInfo.init with
    heartRate := 70, temperature := 36, noiseLevel := 40, fallState := 4 }

/-- C10 (witness): a 13-byte type-1 packet keeps the previous vitals. -/
theorem c10_short_valid_packet_witness :
    (parsePacketInfo c10lp c10p c10p.length).deviceId = c10p.take 10 ∧
    (parsePacketInfo c10lp c10p c10p.length).frameCounter =
      (c10p.getD 11 0 % 256) * 256 + c10p.getD 10 0 % 256 ∧
    (parsePacketInfo c10lp c10p c10p.length).type = c10p.getD 12 0 % 256 ∧
    (parsePacketInfo c10lp c10p c10p.length).hrAlert = false ∧
    (parsePacketInfo c10lp c10p c10p.length).tempAlert = false ∧
    (parsePacketInfo c10lp c10p c10p.length).noiseAlert = false ∧
    (parsePacketInfo c10lp c10p c10p.length).heartRate = c10lp.heartRate ∧
    (parsePacketInfo c10lp c10p c10p.length).temperature = c10lp.temperature ∧
    (parsePacketInfo c10lp c10p c10p.length).noiseLevel = c10lp.noiseLevel ∧
    (parsePacketInfo c10lp c10p c10p.length).fallState = c10lp.fallState :=
  c10_short_valid_packet c10lp c10p (by decide) (Or.inl (by decide))

/-! ## Claims C1, C8, C9 -/

unseal Rat.add Rat.mul Rat.sub Rat.inv Rat.ofScientific in
/-- C1 (counterexample): at the grid point `tempC = -0.4` (k = 49 of the
claimed sweep), the decode of the encode is `-40/51 ≈ -0.784`, an error of
`98/255 ≈ 0.384 °C > 0.2 °C` — `tempToInt8` truncates instead of
rounding, so the claimed 0.2 °C bound fails. -/
theorem c1_counterexample :
    tempGrid 49 = -2/5 ∧
    (-20 : ℚ) ≤ tempGrid 49 ∧ tempGrid 49 ≤ 80 ∧
    1/5 < |decodeTemp (tempToInt8 (tempGrid 49)) - tempGrid 49| := by
  refine ⟨by decide, by decide, by decide, ?_⟩
  decide

/-- C1 (amended): the truncating encoder still keeps every grid point
within one quantisation step: the round-trip error is below 0.4 °C
(in fact below 100/255 ≈ 0.392 °C, always non-positive). -/
theorem c1_temp_roundtrip (k : ℕ) (hk : k ≤ 250) :
    |decodeTemp (tempToInt8 (tempGrid k)) - tempGrid k| < 2/5 := by
  have hx0 : (0:ℚ) ≤ (51 * k : ℚ) / 50 := by positivity
  have harg : (tempGrid k + 20) / 100 * 255 = (51 * k : ℚ) / 50 := by
    unfold tempGrid; ring
  have hkq : (k : ℚ) ≤ 250 := by exact_mod_cast hk
  have h255 : ((51 * k : ℚ) / 50) ≤ 255 := by
    rw [div_le_iff (by norm_num)]
    nlinarith
  have hfl255 : ⌊(51 * k : ℚ) / 50⌋ ≤ 255 := by
    calc ⌊(51 * k : ℚ) / 50⌋ ≤ ⌊(255 : ℚ)⌋ := Int.floor_mono h255
    _ = 255 := by norm_num
  have hfl0 : 0 ≤ ⌊(51 * k : ℚ) / 50⌋ := Int.floor_nonneg.mpr hx0
  have henc : tempToInt8 (tempGrid k) = (⌊(51 * k : ℚ) / 50⌋).toNat := by
    unfold tempToInt8 cTrunc
    rw [harg, if_pos hx0, min_eq_right hfl255, max_eq_right hfl0]
  rw [henc]
  have hcast : (((⌊(51 * k : ℚ) / 50⌋).toNat : ℕ) : ℚ) =
      ((⌊(51 * k : ℚ) / 50⌋ : ℤ) : ℚ) := by
    rw [← Int.cast_natCast, Int.toNat_of_nonneg hfl0]
  unfold decodeTemp tempGrid
  rw [hcast]
  have hle : ((⌊(51 * k : ℚ) / 50⌋ : ℤ) : ℚ) ≤ (51 * k : ℚ) / 50 :=
    Int.floor_le _
  have hgt : (51 * k : ℚ) / 50 - 1 < ((⌊(51 * k : ℚ) / 50⌋ : ℤ) : ℚ) :=
    Int.sub_one_lt_floor _
  rw [abs_lt]
  constructor <;> nlinarith

/-- C1 (witness for the amended claim). -/
theorem c1_temp_roundtrip_witness :
    (49 : ℕ) ≤ 250 ∧
    |decodeTemp (tempToInt8 (tempGrid 49)) - tempGrid 49| < 2/5 :=
  ⟨by decide, c1_temp_roundtrip 49 (by decide)⟩

/-- C8: the serial relay frame for a payload of length L ≤ 255 is exactly
`0xAA, L, rssi+150, snr+20, payload (unmodified), 0x55` — L+5 bytes, so 15
bytes for the 10-byte realtime payload. -/
theorem c8_relay_framing (data : List ℕ) (rssi : ℤ) (snr : ℚ)
    (hlen : data.length ≤ 255) (hlo : -150 ≤ rssi) (hhi : rssi ≤ 105) :
    (forwardToRaspberryPi data rssi snr).length = data.length + 5 ∧
    forwardToRaspberryPi data rssi snr =
      0xAA :: data.length :: (rssi + 150).toNat ::
        u8ofInt (cTrunc (snr + 20)) :: (data ++ [0x55]) ∧
    (data.length = 10 → (forwardToRaspberryPi data rssi snr).length = 15) := by
  refine ⟨?_, ?_, ?_⟩
  · simp [forwardToRaspberryPi]
  · unfold forwardToRaspberryPi u8ofInt
    rw [Nat.mod_eq_of_lt (by omega)]
    rw [Int.emod_eq_of_lt (by omega) (by omega)]
  · intro h10
    simp [forwardToRaspberryPi, h10]

unseal Rat.add Rat.mul Rat.sub Rat.inv Rat.ofScientific in
/-- C8 (witness): a 10-byte payload at RSSI −80 dBm, SNR 5 dB. -/
theorem c8_relay_framing_witness :
    (forwardToRaspberryPi (List.replicate 10 7) (-80) 5).length =
      (List.replicate 10 7 : List ℕ).length + 5 ∧
    forwardToRaspberryPi (List.replicate 10 7) (-80) 5 =
      0xAA :: (List.replicate 10 7 : List ℕ).length :: ((-80 : ℤ) + 150).toNat ::
        u8ofInt (cTrunc ((5 : ℚ) + 20)) :: (List.replicate 10 7 ++ [0x55]) ∧
    ((List.replicate 10 7 : List ℕ).length = 10 →
      (forwardToRaspberryPi (List.replicate 10 7) (-80) 5).length = 15) :=
  c8_relay_framing (List.replicate 10 7) (-80) 5 (by decide) (by decide)
    (by decide)

theorem sendOk_fc (port : ℕ) (data : List ℕ) (t : ℕ) (s : LoRaCommState)
    (h : s.initialized = true) :
    (sendOk port data t s).frameCounter = (s.frameCounter + 1) % 65536 ∧
    (sendOk port data t s).initialized = true := by
  unfold sendOk sendUplink
  rw [if_neg (not_not_intro h)]
  simp [h]

theorem sendOk_iter (port : ℕ) (data : List ℕ) (t : ℕ) :
    ∀ (n : ℕ) (s : LoRaCommState), s.initialized = true →
      s.frameCounter < 65536 →
      ((sendOk port data t)^[n] s).frameCounter =
        (s.frameCounter + n) % 65536 := by
  intro n
  induction n with
  | zero => intro s h hfc; simpa using (Nat.mod_eq_of_lt hfc).symm
  | succ n ih =>
    intro s h hfc
    rw [Function.iterate_succ_apply]
    have hs := sendOk_fc port data t s h
    rw [ih (sendOk port data t s) hs.2 (by rw [hs.1]; exact Nat.mod_lt _ (by omega))]
    rw [hs.1]
    omega

/-- C9: `frameCounter` starts at 0, increments by exactly 1 mod 65536 on
each successful transmit and is untouched on a failed one; 65536
consecutive successes return it to 0; and the 2-byte little-endian header
field always encodes the pre-increment value. -/
theorem c9_frame_counter_wrap :
    LoRaCommState.init.frameCounter = 0 ∧
    (∀ s port data t, s.initialized = true →
      (sendUplink s port data true t).2.1.frameCounter =
        (s.frameCounter + 1) % 65536) ∧
    (∀ (s : LoRaCommState) port data t,
      (sendUplink s port data false t).2.1.frameCounter = s.frameCounter) ∧
    (∀ s port data t, s.initialized = true →
      (sendUplink s port data true t).2.2 =
        some (uplinkPacket s.frameCounter port data)) ∧
    (∀ fc port data, fc < 65536 →
      (uplinkPacket fc port data).getD 10 0 +
        256 * (uplinkPacket fc port data).getD 11 0 = fc) ∧
    (∀ port data t (s : LoRaCommState), s.initialized = true →
      s.frameCounter = 0 →
      ((sendOk port data t)^[65536] s).frameCounter = 0) := by
  refine ⟨rfl, ?_, ?_, ?_, ?_, ?_⟩
  · intro s port data t h
    unfold sendUplink
    rw [if_neg (not_not_intro h)]
    simp
  · intro s port data t
    unfold sendUplink
    split
    · rfl
    · rfl
  · intro s port data t h
    unfold sendUplink
    rw [if_neg (not_not_intro h)]
    simp
  · intro fc port data hfc
    unfold uplinkPacket deviceIdBytes
    simp only [List.cons_append, List.nil_append, List.getD_cons_succ,
      List.getD_cons_zero]
    omega
  · intro port data t s h hfc
    rw [sendOk_iter port data t 65536 s h (by omega), hfc]

/-- C9 (witness). -/
theorem c9_frame_counter_wrap_witness :
    (sendUplink ⟨true, 65535, 0⟩ 1 [2] true 5).2.1.frameCounter =
      (65535 + 1) % 65536 ∧
    ((sendOk 1 [2] 5)^[65536] ⟨true, 0, 0⟩).frameCounter = 0 ∧
    (uplinkPacket 513 1 [2]).getD 10 0 +
      256 * (uplinkPacket 513 1 [2]).getD 11 0 = 513 :=
  ⟨c9_frame_counter_wrap.2.1 ⟨true, 65535, 0⟩ 1 [2] 5 rfl,
   c9_frame_counter_wrap.2.2.2.2.2 1 [2] 5 ⟨true, 0, 0⟩ rfl rfl,
   c9_frame_counter_wrap.2.2.2.2.1 513 1 [2] (by omega)⟩
